import Mathlib

/-!
Verification of the AI-Judge evaluation pipeline (Supabase Edge Function
`run-evaluations`).  The TypeScript sources embedded here are:

* `supabase/functions/run-evaluations/openAI.ts` — prompt builder, model
  caller, response validator;
* `supabase/functions/run-evaluations/database.ts` — database reads, the
  reconciliation delete and the upsert-based save;
* `supabase/functions/run-evaluations/evaluate.ts` — per-assignment
  orchestrator;
* `supabase/functions/run-evaluations/index.ts` — the batch runner / HTTP
  entry point.

The embedding models JavaScript runtime values (`Json`, which includes the
distinguished `undefined` value), JSON parsing and serialisation as
executable Lean functions, and the external world (the OpenAI HTTP endpoint
and database write failures) as explicit environment parameters.  Database
transport is assumed reachable: reads are modelled as pure queries over an
in-memory table state, while write failures (which the code handles
explicitly) are environment-injected.
-/

/-- Model of a JavaScript runtime value as it can appear in this pipeline:
the JSON value kinds plus the distinguished `undefined` value.  Numbers are
represented as `num m e` meaning `m * 10 ^ e`, which covers every numeric
literal accepted by `JSON.parse`. -/
inductive Json where
  | null : Json
  | undefined : Json
  | bool : Bool → Json
  | num : Int → Int → Json
  | str : String → Json
  | arr : List Json → Json
  | obj : List (String × Json) → Json

/-- Truthiness of a JavaScript value (`Boolean(v)`). -/
def jsTruthy : Json → Bool
  | .null => false
  | .undefined => false
  | .bool b => b
  | .num m _ => m != 0
  | .str s => s ≠ ""
  | .arr _ => true
  | .obj _ => true

/-- Strict equality (`===`) of a JavaScript value against a string literal. -/
def jsEqStr (j : Json) (s : String) : Bool :=
  match j with
  | .str t => t == s
  | _ => false

/-- Plain property access `v.k` for a value already known not to be
`null`/`undefined`: object lookup, `undefined` for missing keys and for
every non-object value. -/
def jsPropTotal (j : Json) (k : String) : Json :=
  match j with
  | .obj fields =>
    match fields.lookup k with
    | some v => v
    | none => .undefined
  | _ => .undefined

/-- Optional-chaining access `v?.k`: `undefined` when the receiver is
`null`/`undefined`, otherwise plain access. -/
def jsOptProp (j : Json) (k : String) : Json :=
  match j with
  | .null => .undefined
  | .undefined => .undefined
  | _ => jsPropTotal j k

/-- Checks whether `pat` occurs at the start of `s` (character lists). -/
def startsWithChars : List Char → List Char → Bool
  | [], _ => true
  | _ :: _, [] => false
  | p :: ps, c :: cs => p == c && startsWithChars ps cs

/-- Checks whether `pat` occurs anywhere inside `s` (character lists). -/
def containsSub (s pat : List Char) : Bool :=
  if startsWithChars pat s then true
  else
    match s with
    | [] => false
    | _ :: rest => containsSub rest pat

/-- Model of JavaScript `s.includes(pat)`. -/
def jsIncludes (s pat : String) : Bool := containsSub s.data pat.data

/-- Hexadecimal digit character for `n < 16` (lower case, as emitted by
`JSON.stringify` escape sequences). -/
def hexDigitChar (n : Nat) : Char :=
  if n < 10 then Char.ofNat (48 + n) else Char.ofNat (87 + n)

/-- Four-digit hexadecimal rendering used by `\u` escapes. -/
def hex4 (n : Nat) : String :=
  String.mk [hexDigitChar (n / 4096 % 16), hexDigitChar (n / 256 % 16),
    hexDigitChar (n / 16 % 16), hexDigitChar (n % 16)]

/-- Escapes one character the way `JSON.stringify` escapes string
contents. -/
def escChar (c : Char) : String :=
  if c == '"' then "\\\""
  else if c == '\\' then "\\\\"
  else if c == '\n' then "\\n"
  else if c == '\r' then "\\r"
  else if c == '\t' then "\\t"
  else if c.toNat == 8 then "\\b"
  else if c.toNat == 12 then "\\f"
  else if c.toNat < 32 then "\\u" ++ hex4 c.toNat
  else String.singleton c

/-- JSON string literal rendering (quotes plus escaped content). -/
def quoteStr (s : String) : String :=
  "\"" ++ String.join (s.data.map escChar) ++ "\""

/-- Strips trailing decimal zeros from a scaled-decimal number, so that the
rendering matches the canonical JavaScript number-to-string output (for
example `1.50` parses to the same number as `1.5` and prints as "1.5"). -/
def normNum : Nat → Int → Int → Int × Int
  | 0, m, e => (m, e)
  | fuel + 1, m, e =>
    if e < 0 && m % 10 == 0 && m != 0 then normNum fuel (m / 10) (e + 1)
    else (m, e)

/-- Decimal rendering of the number `m * 10 ^ e` (plain positional
notation; exponent notation for extreme magnitudes is outside the model). -/
def numRender (m e : Int) : String :=
  if m == 0 then "0"
  else
    let (m', e') := normNum m.natAbs m e
    if e' ≥ 0 then toString (m' * 10 ^ e'.toNat)
    else
      let k := (-e').toNat
      let a := m'.natAbs
      let ip := a / 10 ^ k
      let fp := a % 10 ^ k
      let fs := toString fp
      (if m' < 0 then "-" else "") ++ toString ip ++ "." ++
        String.mk (List.replicate (k - fs.length) '0') ++ fs

/-- Indentation padding used by `JSON.stringify(v, null, 2)`. -/
def padding (n : Nat) : String := String.mk (List.replicate n ' ')

/-- Model of `JSON.stringify(v, null, 2)` at indentation level `ind`;
`none` models the `undefined` return value (the input was `undefined`).
Inside arrays `undefined` items render as "null"; inside objects
`undefined`-valued members are dropped. -/
def stringifyAux (ind : Nat) (j : Json) : Option String :=
  match j with
  | .undefined => none
  | .null => some "null"
  | .bool b => some (if b then "true" else "false")
  | .num m e => some (numRender m e)
  | .str s => some (quoteStr s)
  | .arr xs =>
    if xs.isEmpty then some "[]"
    else
      let items := xs.attach.map (fun x => (stringifyAux (ind + 2) x.1).getD "null")
      some ("[\n" ++ String.intercalate ",\n" (items.map (fun it => padding (ind + 2) ++ it)) ++
        "\n" ++ padding ind ++ "]")
  | .obj fs =>
    let items := fs.attach.filterMap (fun kv =>
      (stringifyAux (ind + 2) kv.1.2).map (fun v => quoteStr kv.1.1 ++ ": " ++ v))
    if items.isEmpty then some "\x7b\x7d"
    else
      some ("\x7b\n" ++ String.intercalate ",\n" (items.map (fun it => padding (ind + 2) ++ it)) ++
        "\n" ++ padding ind ++ "\x7d")
termination_by sizeOf j
decreasing_by
  · have := List.sizeOf_lt_of_mem x.2
    simp_wf
    omega
  · have h1 := List.sizeOf_lt_of_mem kv.2
    have h2 : sizeOf kv.1.2 < sizeOf kv.1 := by
      cases kv.1 with
      | mk a b => simp
    simp_wf
    omega

/-- Model of top-level `JSON.stringify(v, null, 2)`. -/
def jsonStringify (j : Json) : Option String := stringifyAux 0 j

/-- Tests whether a JavaScript value is `null` or `undefined`. -/
def jsNullOrUndefined : Json → Bool
  | .null => true
  | .undefined => true
  | _ => false

/-- String conversion `String(v)` of a JavaScript value (template-literal
interpolation); array elements that are `null`/`undefined` render as the
empty string, per `Array.prototype.toString`. -/
def jsToString (j : Json) : String :=
  match j with
  | .null => "null"
  | .undefined => "undefined"
  | .bool b => if b then "true" else "false"
  | .num m e => numRender m e
  | .str s => s
  | .arr xs =>
    String.intercalate "," (xs.attach.map (fun x =>
      if jsNullOrUndefined x.1 then "" else jsToString x.1))
  | .obj _ => "[object Object]"
termination_by sizeOf j
decreasing_by
  have := List.sizeOf_lt_of_mem x.2
  simp_wf
  omega

/-- Whitespace skipping over the four JSON whitespace characters. -/
def skipWs : List Char → List Char
  | c :: cs =>
    if c == ' ' || c == '\t' || c == '\n' || c == '\r' then skipWs cs else c :: cs
  | [] => []

/-- Matches an expected literal character sequence at the head of the
input, returning the remainder. -/
def stripLit : List Char → List Char → Option (List Char)
  | [], cs => some cs
  | _ :: _, [] => none
  | p :: ps, c :: cs => if p == c then stripLit ps cs else none

/-- Splits off the longest run of leading decimal digits. -/
def takeDigits : List Char → List Char × List Char
  | c :: cs =>
    if c.isDigit then
      let (ds, r) := takeDigits cs
      (c :: ds, r)
    else ([], c :: cs)
  | [] => ([], [])

/-- Natural-number value of a digit run. -/
def digitsToNat (ds : List Char) : Nat :=
  ds.foldl (fun acc c => acc * 10 + (c.toNat - 48)) 0

/-- Value of a hexadecimal digit character, if it is one. -/
def hexVal (c : Char) : Option Nat :=
  if c.isDigit then some (c.toNat - 48)
  else if 'a' ≤ c && c ≤ 'f' then some (c.toNat - 87)
  else if 'A' ≤ c && c ≤ 'F' then some (c.toNat - 55)
  else none

/-- Parses the body of a JSON string literal (the opening quote already
consumed), handling the escape sequences accepted by `JSON.parse` and
rejecting unescaped control characters. -/
def parseStringBody : List Char → Option (List Char × List Char)
  | [] => none
  | c :: cs =>
    if c == '"' then some ([], cs)
    else if c == '\\' then
      match cs with
      | [] => none
      | e :: cs' =>
        if e == '"' then (parseStringBody cs').map (fun p => ('"' :: p.1, p.2))
        else if e == '\\' then (parseStringBody cs').map (fun p => ('\\' :: p.1, p.2))
        else if e == '/' then (parseStringBody cs').map (fun p => ('/' :: p.1, p.2))
        else if e == 'b' then (parseStringBody cs').map (fun p => (Char.ofNat 8 :: p.1, p.2))
        else if e == 'f' then (parseStringBody cs').map (fun p => (Char.ofNat 12 :: p.1, p.2))
        else if e == 'n' then (parseStringBody cs').map (fun p => ('\n' :: p.1, p.2))
        else if e == 'r' then (parseStringBody cs').map (fun p => ('\r' :: p.1, p.2))
        else if e == 't' then (parseStringBody cs').map (fun p => ('\t' :: p.1, p.2))
        else if e == 'u' then
          match cs' with
          | a :: b :: c2 :: d :: rest =>
            match hexVal a, hexVal b, hexVal c2, hexVal d with
            | some ha, some hb, some hc, some hd =>
              (parseStringBody rest).map
                (fun p => (Char.ofNat (ha * 4096 + hb * 256 + hc * 16 + hd) :: p.1, p.2))
            | _, _, _, _ => none
          | _ => none
        else none
    else if c.toNat < 32 then none
    else (parseStringBody cs).map (fun p => (c :: p.1, p.2))

/-- Parses a JSON number token into scaled-decimal form `(mantissa,
exponent)`, following the JSON grammar (`-?(0|[1-9][0-9]*)(\.[0-9]+)?([eE][+-]?[0-9]+)?`). -/
def parseNum (cs : List Char) : Option ((Int × Int) × List Char) :=
  let (neg, cs1) :=
    match cs with
    | c :: r => if c == '-' then (true, r) else (false, cs)
    | [] => (false, ([] : List Char))
  match cs1 with
  | [] => none
  | c :: r =>
    let ipOpt : Option (Nat × List Char) :=
      if c == '0' then some (0, r)
      else if c.isDigit then
        let (ds, r2) := takeDigits (c :: r)
        some (digitsToNat ds, r2)
      else none
    ipOpt.bind (fun ipr =>
      let (ip, rest1) := ipr
      let fracOpt : Option (Nat × Int × List Char) :=
        match rest1 with
        | '.' :: r2 =>
          let (ds, r3) := takeDigits r2
          if ds.isEmpty then none
          else some (ip * 10 ^ ds.length + digitsToNat ds, -(ds.length : Int), r3)
        | _ => some (ip, 0, rest1)
      fracOpt.bind (fun fr =>
        let (m, e, rest2) := fr
        let expOpt : Option (Int × List Char) :=
          match rest2 with
          | c2 :: r4 =>
            if c2 == 'e' || c2 == 'E' then
              let (esign, r5) :=
                match r4 with
                | s :: r6 =>
                  if s == '+' then ((1 : Int), r6)
                  else if s == '-' then ((-1 : Int), r6)
                  else ((1 : Int), r4)
                | [] => ((1 : Int), ([] : List Char))
              let (ds, r7) := takeDigits r5
              if ds.isEmpty then none else some (esign * digitsToNat ds, r7)
            else some (0, rest2)
          | [] => some (0, rest2)
        expOpt.map (fun er =>
          let (ex, rest3) := er
          (((if neg then -(m : Int) else (m : Int)), e + ex), rest3))))

/-- Replaces the value of an existing key or appends a new member,
matching JavaScript object semantics where a duplicate key in a JSON text
overwrites the earlier value but keeps the earlier position. -/
def insertKey (fs : List (String × Json)) (k : String) (v : Json) : List (String × Json) :=
  if fs.any (fun kv => kv.1 == k) then
    fs.map (fun kv => if kv.1 == k then (k, v) else kv)
  else fs ++ [(k, v)]

mutual

/-- Parses one JSON value at the head of the input (fuel-indexed recursive
descent; the fuel is sized generously by the caller so it never runs out on
real input). -/
def parseVal (fuel : Nat) (cs : List Char) : Option (Json × List Char) :=
  match fuel with
  | 0 => none
  | fuel + 1 =>
    match cs with
    | [] => none
    | c :: rest =>
      if c == 'n' then (stripLit ['u', 'l', 'l'] rest).map (fun r => (Json.null, r))
      else if c == 't' then (stripLit ['r', 'u', 'e'] rest).map (fun r => (Json.bool true, r))
      else if c == 'f' then (stripLit ['a', 'l', 's', 'e'] rest).map (fun r => (Json.bool false, r))
      else if c == '"' then (parseStringBody rest).map (fun p => (Json.str (String.mk p.1), p.2))
      else if c == Char.ofNat 123 then parseObjBody fuel (skipWs rest)
      else if c == '[' then parseArrBody fuel (skipWs rest)
      else if c == '-' || c.isDigit then
        (parseNum (c :: rest)).map (fun p => (Json.num p.1.1 p.1.2, p.2))
      else none

/-- Parses an array body after the opening bracket (input already
whitespace-skipped). -/
def parseArrBody (fuel : Nat) (cs : List Char) : Option (Json × List Char) :=
  match fuel with
  | 0 => none
  | fuel + 1 =>
    match cs with
    | [] => none
    | c :: rest =>
      if c == ']' then some (Json.arr [], rest)
      else parseArrElems fuel cs []

/-- Parses the comma-separated elements of a non-empty array. -/
def parseArrElems (fuel : Nat) (cs : List Char) (acc : List Json) : Option (Json × List Char) :=
  match fuel with
  | 0 => none
  | fuel + 1 =>
    (parseVal fuel (skipWs cs)).bind (fun p =>
      match skipWs p.2 with
      | c :: rest =>
        if c == ',' then parseArrElems fuel rest (acc ++ [p.1])
        else if c == ']' then some (Json.arr (acc ++ [p.1]), rest)
        else none
      | [] => none)

/-- Parses an object body after the opening brace (input already
whitespace-skipped). -/
def parseObjBody (fuel : Nat) (cs : List Char) : Option (Json × List Char) :=
  match fuel with
  | 0 => none
  | fuel + 1 =>
    match cs with
    | [] => none
    | c :: rest =>
      if c == Char.ofNat 125 then some (Json.obj [], rest)
      else parseObjMembers fuel cs []

/-- Parses the comma-separated members of a non-empty object. -/
def parseObjMembers (fuel : Nat) (cs : List Char) (acc : List (String × Json)) :
    Option (Json × List Char) :=
  match fuel with
  | 0 => none
  | fuel + 1 =>
    match cs with
    | c :: rest =>
      if c == '"' then
        (parseStringBody rest).bind (fun kp =>
          match skipWs kp.2 with
          | c2 :: rest2 =>
            if c2 == ':' then
              (parseVal fuel (skipWs rest2)).bind (fun vp =>
                let acc' := insertKey acc (String.mk kp.1) vp.1
                match skipWs vp.2 with
                | c3 :: rest3 =>
                  if c3 == ',' then
                    match skipWs rest3 with
                    | c4 :: rest4 => parseObjMembers fuel (c4 :: rest4) acc'
                    | [] => none
                  else if c3 == Char.ofNat 125 then some (Json.obj acc', rest3)
                  else none
                | [] => none)
            else none
          | [] => none)
      else none
    | [] => none

end

/-- Model of `JSON.parse(s)`: parses one JSON value surrounded by optional
whitespace; `none` models a thrown `SyntaxError`. -/
def jsonParse (s : String) : Option Json :=
  match parseVal (3 * s.length + 3) (skipWs s.data) with
  | some (j, r) => if (skipWs r).isEmpty then some j else none
  | none => none

/-- Verdict literals from `types.ts`. -/
inductive Verdict where
  | pass : Verdict
  | fail : Verdict
  | inconclusive : Verdict
deriving DecidableEq

/-- AI judge configuration as selected by `getJudgesForUser`
(`types.ts` interface `JudgeData`). -/
structure JudgeData where
  id : String
  name : String
  system_prompt : String
  model : String

/-- Question data with attached answer (`types.ts` interface
`QuestionData`).  The `question_type` column is a nullable string in the
database; the code dispatches on its literal value with a default branch,
so it is modelled as `Option String` rather than a closed enum. -/
structure QuestionData where
  id : String
  question_text : String
  question_type : Option String
  answer_json : Json
  submission_id : String

/-- Judge-question assignment (`types.ts` interface `Assignment`). -/
structure Assignment where
  judge_id : String
  question_id : String

/-- Result of a single evaluation (`types.ts` interface
`EvaluationResult`). -/
structure EvaluationResult where
  questionId : String
  judgeId : String
  verdict : Verdict
  success : Bool
  error : Option String

/-- Validated response from the model (`types.ts` interface
`OpenAIResponse`).  `reasoning` is typed `string` in TypeScript but at
runtime carries whatever JavaScript value `parsed.reasoning || ''`
produced, so it is modelled as a `Json` value. -/
structure OpenAIResponse where
  verdict : Verdict
  reasoning : Json

/-- Row of the `submissions` table (the columns the pipeline reads). -/
structure SubmissionRow where
  id : String
  workspace_id : String

/-- Row of the `questions` table (the columns the pipeline reads). -/
structure QuestionRow where
  id : String
  question_text : String
  question_type : Option String
  submission_id : String

/-- Row of the `answers` table (the columns the pipeline reads). -/
structure AnswerRow where
  question_id : String
  answer_json : Json

/-- Row of the `judges` table (the columns the pipeline reads, plus the
`user_id` owner column used in the ownership filter). -/
structure JudgeRow where
  id : String
  name : String
  system_prompt : String
  model : String
  user_id : String

/-- Row of the `evaluations` table.  Primary-key ids are UUIDs in the
schema; the model generates them from a counter. -/
structure EvaluationRow where
  id : Nat
  submission_id : String
  question_id : String
  judge_id : String
  verdict : Verdict
  reasoning : Json

/-- In-memory database state: the tables the Edge Function touches, plus
the id counter for freshly inserted evaluation rows. -/
structure DB where
  submissions : List SubmissionRow
  questions : List QuestionRow
  answers : List AnswerRow
  judge_assignments : List Assignment
  judges : List JudgeRow
  evaluations : List EvaluationRow
  nextEvalId : Nat

/-- JavaScript `Map.set` semantics: replace the value of an existing key
in place, otherwise append. -/
def mapSet {α : Type} (m : List (String × α)) (k : String) (v : α) : List (String × α) :=
  if m.any (fun kv => kv.1 == k) then
    m.map (fun kv => if kv.1 == k then (k, v) else kv)
  else m ++ [(k, v)]

/-- JavaScript `Map.get` semantics (`none` models `undefined`). -/
def mapGet {α : Type} (m : List (String × α)) (k : String) : Option α :=
  (m.find? (fun kv => kv.1 == k)).map (·.2)

/-- Model of `database.ts` `getSubmissionsForWorkspace`: ids of the
workspace's submissions, error when there are none. -/
def getSubmissionsForWorkspace (db : DB) (workspaceId : String) : Except String (List String) :=
  let data := (db.submissions.filter (fun s => s.workspace_id == workspaceId)).map (·.id)
  if data.isEmpty then .error "No submissions found in workspace"
  else .ok data

/-- Model of `database.ts` `getQuestionsForSubmissions`: question rows of
the given submissions as `QuestionData` with a `null` answer placeholder,
error when there are none. -/
def getQuestionsForSubmissions (db : DB) (submissionIds : List String) :
    Except String (List QuestionData) :=
  let data := db.questions.filter (fun q => submissionIds.contains q.submission_id)
  if data.isEmpty then .error "No questions found"
  else .ok (data.map (fun q =>
    { id := q.id, question_text := q.question_text, question_type := q.question_type,
      answer_json := Json.null, submission_id := q.submission_id }))

/-- Model of `database.ts` `getAnswersForQuestions`: answers of the given
questions accumulated into a JavaScript `Map` keyed by question id. -/
def getAnswersForQuestions (db : DB) (questionIds : List String) : List (String × Json) :=
  (db.answers.filter (fun a => questionIds.contains a.question_id)).foldl
    (fun m a => mapSet m a.question_id a.answer_json) []

/-- Model of `database.ts` `getJudgeAssignments`: empty list for an empty
question-id list, otherwise the assignments of the given questions with an
error when there are none. -/
def getJudgeAssignments (db : DB) (questionIds : List String) :
    Except String (List Assignment) :=
  if questionIds.isEmpty then .ok []
  else
    let data := db.judge_assignments.filter (fun a => questionIds.contains a.question_id)
    if data.isEmpty then .error "No judge assignments found"
    else .ok data

/-- Model of `database.ts` `getJudgesForUser`: empty list for an empty
judge-id list, otherwise the requested judges owned by the given user with
an error when there are none. -/
def getJudgesForUser (db : DB) (judgeIds : List String) (userId : String) :
    Except String (List JudgeData) :=
  if judgeIds.isEmpty then .ok []
  else
    let data := db.judges.filter (fun j => judgeIds.contains j.id && j.user_id == userId)
    if data.isEmpty then .error "No judges found"
    else .ok (data.map (fun j =>
      { id := j.id, name := j.name, system_prompt := j.system_prompt, model := j.model }))

/-- Pair key `` `${question_id}:${judge_id}` `` used by the reconciliation
step to compare evaluation rows with assignments. -/
def pairKey (questionId judgeId : String) : String := questionId ++ ":" ++ judgeId

/-- Model of `database.ts` `deleteOldEvaluations`: removes the evaluation
rows of the given questions whose pair key is not among the current
assignments (selection by row then deletion by row id, as in the source). -/
def deleteOldEvaluations (db : DB) (questionIds : List String)
    (currentAssignments : List Assignment) : DB :=
  if questionIds.isEmpty then db
  else
    let validPairs := currentAssignments.map (fun a => pairKey a.question_id a.judge_id)
    let existingEvaluations := db.evaluations.filter (fun e => questionIds.contains e.question_id)
    if existingEvaluations.isEmpty then db
    else
      let evaluationsToDelete := existingEvaluations.filter
        (fun e => !(validPairs.contains (pairKey e.question_id e.judge_id)))
      if evaluationsToDelete.isEmpty then db
      else
        let idsToDelete := evaluationsToDelete.map (·.id)
        { db with evaluations := db.evaluations.filter (fun e => !(idsToDelete.contains e.id)) }

/-- Database effect of `database.ts` `saveEvaluation`: an upsert keyed on
the `(question_id, judge_id)` conflict target — the existing row for that
pair is overwritten, otherwise a fresh row is inserted. -/
def saveEvaluationDb (db : DB) (submissionId questionId judgeId : String)
    (verdict : Verdict) (reasoning : Json) : DB :=
  if db.evaluations.any (fun e => e.question_id == questionId && e.judge_id == judgeId) then
    { db with evaluations := db.evaluations.map (fun e =>
        if e.question_id == questionId && e.judge_id == judgeId then
          { e with submission_id := submissionId, verdict := verdict, reasoning := reasoning }
        else e) }
  else
    let newRow : EvaluationRow :=
      { id := db.nextEvalId, submission_id := submissionId, question_id := questionId,
        judge_id := judgeId, verdict := verdict, reasoning := reasoning }
    { db with evaluations := db.evaluations ++ [newRow], nextEvalId := db.nextEvalId + 1 }

/-- Thrown JavaScript errors reaching the pipeline's catch blocks.  The
texts of engine-raised `SyntaxError`/`TypeError` messages are
engine-specific and modelled by fixed stand-in strings. -/
inductive JsError where
  | error (msg : String)
  | syntaxError
  | typeError

/-- Message of a thrown error (`error.message`). -/
def JsError.message : JsError → String
  | .error m => m
  | .syntaxError => "Unexpected token in JSON"
  | .typeError => "Cannot read properties of null"

/-- Model of `database.ts` `saveEvaluation`: the database client either
reports an error (environment-injected, `if (error) throw error`) or the
upsert takes effect. -/
def saveEvaluation (clientError : Option String) (db : DB)
    (submissionId questionId judgeId : String) (verdict : Verdict) (reasoning : Json) :
    Except JsError DB :=
  match clientError with
  | some m => .error (.error m)
  | none => .ok (saveEvaluationDb db submissionId questionId judgeId verdict reasoning)

/-- Common tail fragment of the JSON-format instruction that every branch
of the prompt builder embeds (the three typed branches close it with
`"}`; the default branch closes it with ` here"}`). -/
def respondJsonFragment : String :=
  "\x7b\"verdict\": \"pass\" | \"fail\" | \"inconclusive\", \"reasoning\": \"your explanation"

/-- Rendering of `` `${JSON.stringify(answerJson, null, 2)}` `` inside the
prompt template: the serialised text, or the text "undefined" when the
payload is the `undefined` value (for which `JSON.stringify` returns
`undefined` and the template literal stringifies it). -/
def renderedAnswerStr (answerJson : Json) : String :=
  match jsonStringify answerJson with
  | some s => s
  | none => "undefined"

/-- Model of `openAI.ts` `buildTypeSpecificPrompt`: a switch on the
question-type string with branches for the three known types and a generic
default for null/unrecognised values. -/
def buildTypeSpecificPrompt (questionType : Option String) (questionText : String)
    (answerJson : Json) : String :=
  let answerStr := renderedAnswerStr answerJson
  match questionType with
  | some "multiple_choice" =>
    "Question Type: Multiple Choice\nQuestion: " ++ questionText ++
    "\n\nAnswer JSON:\n" ++ answerStr ++
    "\n\nEvaluation Instructions:\n- This is a standard multiple-choice question with a definitive ground truth.\n- Extract the user\x27s choice from the \x27choice\x27, \x27label\x27, or \x27choices\x27 field in the answer JSON.\n- If \x27choices\x27 is an array, use the array values as the selected options.\n- If \x27choices\x27 is a single value, treat it as the selected choice.\n- Check if the choice(s) match the correct answer (ground truth).\n- If the choice is incorrect, issue an immediate FAIL.\n- If the choice is correct, issue a PASS.\n- Respond with JSON: " ++
    respondJsonFragment ++ "\"\x7d"
  | some "single_choice_with_reasoning" =>
    "Question Type: Single Choice with Reasoning\nQuestion: " ++ questionText ++
    "\n\nAnswer JSON:\n" ++ answerStr ++
    "\n\nEvaluation Instructions:\n- This question type expects a fixed choice (like \"yes/no\") plus a text explanation.\n- Extract both the \x27choice\x27 (or \x27label\x27) AND \x27reasoning\x27 fields from the answer JSON.\n- The choice must be correct AND the reasoning must support it.\n- Look for contradictions: If the choice is correct but reasoning says \"I don\x27t know\" or contradicts the choice, issue INCONCLUSIVE (human was guessing).\n- If choice is wrong, issue FAIL.\n- If choice is correct AND reasoning supports it, issue PASS.\n- Respond with JSON: " ++
    respondJsonFragment ++ "\"\x7d"
  | some "free_form" =>
    "Question Type: Free-Form (Open-Ended)\nQuestion: " ++ questionText ++
    "\n\nAnswer JSON:\n" ++ answerStr ++
    "\n\nEvaluation Instructions:\n- Extract the text content from \x27text\x27 or \x27content\x27 field in the answer JSON.\n- This is a subjective evaluation with no exact string match.\n- Evaluate the quality, tone, and accuracy of the text.\n- Use the system prompt (rubric) to determine if the human followed instructions.\n- Act like a teacher: assess whether the answer demonstrates understanding.\n- Respond with JSON: " ++
    respondJsonFragment ++ "\"\x7d"
  | _ =>
    "Question: " ++ questionText ++
    "\n\nAnswer JSON:\n" ++ answerStr ++
    "\n\nEvaluate this answer and respond with JSON in this exact format: " ++
    respondJsonFragment ++ " here\"\x7d"

/-- Denylist of model-name substrings that reject `temperature: 0`
(`openAI.ts` `modelsWithoutTemperature`). -/
def modelsWithoutTemperature : List String :=
  ["gpt-5-mini", "gpt-5.1-mini", "gpt-5 mini", "gpt-5.1 mini"]

/-- ASCII lower-casing (JavaScript `toLowerCase` on the character data;
kept as an explicit character-list map so it evaluates by reduction). -/
def strToLower (s : String) : String := String.mk (s.data.map Char.toLower)

/-- Whether the temperature parameter is included on the first request
(`openAI.ts` `supportsTemperature`). -/
def supportsTemperature (model : String) : Bool :=
  !(modelsWithoutTemperature.any (fun m => jsIncludes (strToLower model) (strToLower m)))

/-- Chat-completion request as issued by `makeRequest`: the model, the two
messages, the bearer credential and whether `temperature: 0` is present
(`response_format: json_object` is always present and not recorded). -/
structure ChatRequest where
  model : String
  apiKey : String
  systemPrompt : String
  userPrompt : String
  includeTemperature : Bool

/-- Outcome of one `fetch` of the chat-completions endpoint, decided by
the external provider environment: an HTTP response (with `ok` flag,
status and body text), an abort by the 2-minute timeout, or a network
error. -/
inductive ProviderResult where
  | response (ok : Bool) (status : Nat) (body : String)
  | timeout
  | networkError (msg : String)

/-- Error thrown when the request is aborted by the timeout. -/
def timeoutError (model : String) : JsError :=
  .error ("OpenAI API request timeout for model " ++ model ++
    ". The request took longer than 2 minutes.")

/-- Substring check applied to error text when deciding the temperature
retry (`includes("temperature") && includes("does not support")`). -/
def tempRetryMsgCheck (s : String) : Bool :=
  jsIncludes s "temperature" && jsIncludes s "does not support"

/-- Structured part of the retry decision: evaluates
`(errorData.error?.code === 'unsupported_value' && errorData.error?.param
=== 'temperature') || (errorData.error?.message && message-substring
checks)` with JavaScript semantics; a thrown `TypeError` (null receiver,
or `.includes` on a truthy non-string message) is surfaced as `.error`. -/
def structuredTempCheck (errorData : Json) : Except JsError Bool :=
  match errorData with
  | .null => .error .typeError
  | .undefined => .error .typeError
  | _ =>
    let e := jsPropTotal errorData "error"
    if jsEqStr (jsOptProp e "code") "unsupported_value" &&
        jsEqStr (jsOptProp e "param") "temperature" then
      .ok true
    else
      let m := jsOptProp e "message"
      if jsTruthy m then
        match m with
        | .str s => .ok (tempRetryMsgCheck s)
        | _ => .error .typeError
      else .ok false

/-- Full retry decision on a non-success first response (`openAI.ts`
lines 183-201): parse the error body and apply the structured check; on a
parse failure, or any throw inside the `try`, fall back to substring
checks on the raw text. -/
def tempRetryCheck (errorText : String) : Bool :=
  match jsonParse errorText with
  | none => tempRetryMsgCheck errorText
  | some errorData =>
    match structuredTempCheck errorData with
    | .ok b => b
    | .error _ => tempRetryMsgCheck errorText

/-- Error thrown for a non-success first response that does not qualify
for the temperature retry (`openAI.ts` lines 208-212).  Note this code
path re-parses the body outside any `try`, so an unparseable body that
contains a brace makes `JSON.parse` itself throw, and a parsed `null` body
makes the `.error` access throw. -/
def firstErrorThrow (status : Nat) (errorText : String) : JsError :=
  if jsIncludes errorText "\x7b" then
    match jsonParse errorText with
    | none => .syntaxError
    | some d =>
      match d with
      | .null => .typeError
      | .undefined => .typeError
      | _ =>
        let m := jsOptProp (jsPropTotal d "error") "message"
        let msg := if jsTruthy m then jsToString m else errorText
        .error ("OpenAI API error: " ++ toString status ++ " " ++ msg)
  else .error ("OpenAI API error: " ++ toString status ++ " " ++ errorText)

/-- Specialised message for unknown/unavailable models. -/
def modelNotAvailableMsg (model : String) : String :=
  "Model \"" ++ model ++
    "\" is not available. Please update your judge to use a different model (e.g., gpt-3.5-turbo)."

/-- Error thrown when the response that survives the retry decision is
still non-success (`openAI.ts` lines 216-233): a message built from the
parsed error body, specialised for model-not-found, with the `catch`
fallback `` `OpenAI API error: ${status} ${errorText}` ``. -/
def secondErrorMessage (model : String) (status : Nat) (errorText : String) : JsError :=
  match jsonParse errorText with
  | none => .error ("OpenAI API error: " ++ toString status ++ " " ++ errorText)
  | some d =>
    match d with
    | .null => .error ("OpenAI API error: " ++ toString status ++ " " ++ errorText)
    | .undefined => .error ("OpenAI API error: " ++ toString status ++ " " ++ errorText)
    | _ =>
      let m := jsOptProp (jsPropTotal d "error") "message"
      if jsTruthy m then
        if jsEqStr (jsPropTotal (jsPropTotal d "error") "code") "model_not_found" then
          .error (modelNotAvailableMsg model)
        else
          match m with
          | .str s =>
            if jsIncludes s "does not exist" then .error (modelNotAvailableMsg model)
            else .error ("OpenAI API error: " ++ s)
          | _ => .error ("OpenAI API error: " ++ toString status ++ " " ++ errorText)
      else .error ("OpenAI API error: " ++ toString status)

/-- Model of `openAI.ts` `validateVerdict`: the value itself when it is
strictly equal to one of the three literals, else `inconclusive`. -/
def validateVerdict (verdict : Json) : Verdict :=
  if jsEqStr verdict "pass" then .pass
  else if jsEqStr verdict "fail" then .fail
  else .inconclusive

/-- Model of the response-validation block of `callOpenAI` (`openAI.ts`
lines 244-258): parse the content as JSON, validate the verdict and
default the reasoning; any throw inside the `try` — a parse failure, or
the property access on a parsed `null` — yields the parse-failure
sentinel. -/
def parseEvaluationResult (content : String) : OpenAIResponse :=
  match jsonParse content with
  | none =>
    { verdict := .inconclusive, reasoning := .str "Failed to parse LLM response as JSON" }
  | some parsed =>
    match parsed with
    | .null =>
      { verdict := .inconclusive, reasoning := .str "Failed to parse LLM response as JSON" }
    | _ =>
      let r := jsPropTotal parsed "reasoning"
      { verdict := validateVerdict (jsPropTotal parsed "verdict"),
        reasoning := if jsTruthy r then r else .str "" }

/-- Index access `v[0]` for a receiver known not to be
`null`/`undefined`. -/
def jsIndexZero : Json → Json
  | .arr [] => .undefined
  | .arr (x :: _) => x
  | .str s => if s.isEmpty then .undefined else .str (String.singleton s.front)
  | .obj fs => (mapGet fs "0").getD .undefined
  | _ => .undefined

/-- Processing of a success response (`openAI.ts` lines 236-260):
`response.json()`, extraction of `data.choices[0]?.message?.content`, the
no-content guard, and response validation. -/
def processOkBody (body : String) : Except JsError OpenAIResponse :=
  match jsonParse body with
  | none => .error .syntaxError
  | some data =>
    match data with
    | .null => .error .typeError
    | .undefined => .error .typeError
    | _ =>
      let choices := jsPropTotal data "choices"
      match choices with
      | .null => .error .typeError
      | .undefined => .error .typeError
      | _ =>
        let content := jsOptProp (jsOptProp (jsIndexZero choices) "message") "content"
        if !(jsTruthy content) then .error (.error "No content in OpenAI response")
        else .ok (parseEvaluationResult (jsToString content))

/-- Model of `openAI.ts` `callOpenAI`, parameterised by the provider
environment (`provider n` is the outcome of the n-th issued request).
Besides the result (`.error` models a thrown error) it returns the trace
of issued requests, so that statements about how many requests were made
and with which parameters are expressible. -/
def callOpenAI (provider : Nat → ProviderResult) (apiKey : String)
    (systemPrompt questionText : String) (questionType : Option String)
    (answerJson : Json) (model : String) :
    Except JsError OpenAIResponse × List ChatRequest :=
  let userPrompt := buildTypeSpecificPrompt questionType questionText answerJson
  let supportsTemp := supportsTemperature model
  let req : Bool → ChatRequest := fun t =>
    { model := model, apiKey := apiKey, systemPrompt := systemPrompt,
      userPrompt := userPrompt, includeTemperature := t }
  match provider 0 with
  | .timeout => (.error (timeoutError model), [req supportsTemp])
  | .networkError m => (.error (.error m), [req supportsTemp])
  | .response ok status body =>
    if ok then (processOkBody body, [req supportsTemp])
    else if tempRetryCheck body then
      match provider 1 with
      | .timeout => (.error (timeoutError model), [req supportsTemp, req false])
      | .networkError m => (.error (.error m), [req supportsTemp, req false])
      | .response ok2 status2 body2 =>
        if ok2 then (processOkBody body2, [req supportsTemp, req false])
        else (.error (secondErrorMessage model status2 body2), [req supportsTemp, req false])
    else (.error (firstErrorThrow status body), [req supportsTemp])

/-- Environment for one orchestrator invocation: the provider's responses
for this assignment's requests, and the database client outcome of each
save attempt (`saveOutcome n` is the injected error, if any, of the n-th
`saveEvaluation` call made by this invocation). -/
structure OrchEnv where
  provider : Nat → ProviderResult
  saveOutcome : Nat → Option String

/-- Catch block of `evaluate.ts` `evaluateAssignment`: try to persist an
`inconclusive` fallback row (swallowing a failure of that save) and return
the failure result carrying the original error message. -/
def evalFallback (saveErr : Option String) (db : DB) (assignment : Assignment)
    (question : QuestionData) (e : JsError) : EvaluationResult × DB :=
  let db1 :=
    match saveEvaluation saveErr db question.submission_id assignment.question_id
        assignment.judge_id .inconclusive (.str ("Error: " ++ e.message)) with
    | .ok d => d
    | .error _ => db
  ({ questionId := assignment.question_id, judgeId := assignment.judge_id,
     verdict := .inconclusive, success := false, error := some e.message }, db1)

/-- Model of `evaluate.ts` `evaluateAssignment`: call the model, persist
the validated outcome (`result.reasoning || null`), and on any throw run
the fallback path.  The function is total — every invocation returns a
result object. -/
def evaluateAssignment (env : OrchEnv) (db : DB) (assignment : Assignment)
    (judge : JudgeData) (question : QuestionData) (openaiApiKey : String) :
    EvaluationResult × DB :=
  match (callOpenAI env.provider openaiApiKey judge.system_prompt question.question_text
      question.question_type question.answer_json judge.model).1 with
  | .ok result =>
    match saveEvaluation (env.saveOutcome 0) db question.submission_id assignment.question_id
        assignment.judge_id result.verdict
        (if jsTruthy result.reasoning then result.reasoning else .null) with
    | .ok db1 =>
      ({ questionId := assignment.question_id, judgeId := assignment.judge_id,
         verdict := result.verdict, success := true, error := none }, db1)
    | .error e => evalFallback (env.saveOutcome 1) db assignment question e
  | .error e => evalFallback (env.saveOutcome 0) db assignment question e

/-- Body of the trigger endpoint's success response (`index.ts`
`successResponse`): summary statistics over the individual results. -/
structure SummaryResponse where
  success : Bool
  processed : Nat
  passed : Nat
  failed : Nat
  inconclusive : Nat
  results : List EvaluationResult

/-- Model of `index.ts` `successResponse`. -/
def successResponse (results : List EvaluationResult) : SummaryResponse :=
  { success := true,
    processed := results.length,
    passed := (results.filter (fun r => r.verdict == .pass)).length,
    failed := (results.filter (fun r => r.verdict == .fail)).length,
    inconclusive := (results.filter (fun r => r.verdict == .inconclusive)).length,
    results := results }

/-- Outcome of one invocation of the trigger endpoint: a 200 success
response or an error response with a status code (`index.ts`
`errorResponse`). -/
inductive RunOutcome where
  | success (resp : SummaryResponse)
  | failure (error : String) (status : Nat)

/-- JavaScript `[...new Set(xs)]`: deduplication keeping first
occurrences. -/
def jsSetDedup (l : List String) : List String :=
  l.foldl (fun acc x => if acc.contains x then acc else acc ++ [x]) []

/-- Truthiness of `Deno.env.get`'s `string | undefined` result. -/
def strOptTruthy : Option String → Bool
  | some s => s != ""
  | none => false

/-- Step-8 loop of `index.ts`: process the assignments strictly in
sequence, skipping any assignment whose judge or question is missing from
the lookup maps, threading the database state and collecting the results.
The counter indexes the per-assignment environment. -/
def processAssignments (env : Nat → OrchEnv) (apiKey : String)
    (judgeMap : List (String × JudgeData)) (questionMap : List (String × QuestionData)) :
    List Assignment → Nat → DB → List EvaluationResult × DB
  | [], _, db => ([], db)
  | a :: rest, i, db =>
    match mapGet judgeMap a.judge_id, mapGet questionMap a.question_id with
    | some judge, some question =>
      let rdb := evaluateAssignment (env i) db a judge question apiKey
      let rsdb := processAssignments env apiKey judgeMap questionMap rest (i + 1) rdb.2
      (rdb.1 :: rsdb.1, rsdb.2)
    | _, _ => processAssignments env apiKey judgeMap questionMap rest (i + 1) db

/-- Step-7 lookup map construction for questions: each question keyed by
id, with the answer from the answer map attached (a missing answer leaves
the JavaScript `undefined` value, since `Map.get` returns `undefined`). -/
def buildQuestionMap (questions : List QuestionData) (answerMap : List (String × Json)) :
    List (String × QuestionData) :=
  questions.foldl (fun m q =>
    mapSet m q.id { q with answer_json := (mapGet answerMap q.id).getD Json.undefined }) []

/-- Step-7 lookup map construction for judges. -/
def buildJudgeMap (judges : List JudgeData) : List (String × JudgeData) :=
  judges.foldl (fun m j => mapSet m j.id j) []

/-- Model of the `serve` handler of `index.ts` (the POST path, after CORS
and request-body parsing): credential and input validation, the five
resolution steps with their benign-empty special cases, the
reconciliation delete, the sequential processing loop, and the summary
response.  Any thrown error is caught and answered with a 500 error
response. -/
def serveRun (env : Nat → OrchEnv) (openaiSecretKey : Option String)
    (workspaceId userId : String) (db : DB) : RunOutcome × DB :=
  if !(strOptTruthy openaiSecretKey) then
    (.failure "OPENAI_SECRET_KEY not configured in environment variables" 500, db)
  else
    let apiKey := openaiSecretKey.getD ""
    if workspaceId == "" || userId == "" then
      (.failure "Missing workspaceId or userId" 400, db)
    else
      match getSubmissionsForWorkspace db workspaceId with
      | .error msg => (.failure msg 500, db)
      | .ok submissionIds =>
        match getQuestionsForSubmissions db submissionIds with
        | .error msg => (.failure msg 500, db)
        | .ok questions =>
          let questionIds := questions.map (·.id)
          let answerMap := getAnswersForQuestions db questionIds
          match getJudgeAssignments db questionIds with
          | .error msg =>
            if jsIncludes msg "No judge assignments found" then
              (.success (successResponse []), db)
            else (.failure msg 500, db)
          | .ok assignments =>
            let judgeIds := jsSetDedup (assignments.map (·.judge_id))
            match getJudgesForUser db judgeIds userId with
            | .error msg =>
              if jsIncludes msg "No judges found" then
                (.success (successResponse []), db)
              else (.failure msg 500, db)
            | .ok judges =>
              let db1 := deleteOldEvaluations db questionIds assignments
              let judgeMap := buildJudgeMap judges
              let questionMap := buildQuestionMap questions answerMap
              let rs := processAssignments env apiKey judgeMap questionMap assignments 0 db1
              (.success (successResponse rs.1), rs.2)

/-- Verdict-field fragment of the JSON-format instruction shared by every
prompt branch. -/
def verdictFieldFragment : String :=
  "\"verdict\": \"pass\" | \"fail\" | \"inconclusive\""

/-- Absence of the separator character from an id string.  Every id in the
schema is a UUID, so this holds for all real data; it is what makes the
`` `${question_id}:${judge_id}` `` pair keys injective. -/
def colonFree (s : String) : Prop := ':' ∉ s.data

instance (s : String) : Decidable (colonFree s) :=
  inferInstanceAs (Decidable (':' ∉ s.data))

/-- Environment whose provider always fails with a network error and whose
database writes succeed (used by concrete runs below). -/
def envNetworkError : Nat → OrchEnv :=
  fun _ => { provider := fun _ => .networkError "boom", saveOutcome := fun _ => none }

/-- Workspace with one question, a stale evaluation for the since-removed
pair `(q1, j2)`, and no assignments at all. -/
def dbStale : DB :=
  { submissions := [⟨"s1", "w1"⟩],
    questions := [⟨"q1", "T", none, "s1"⟩],
    answers := [],
    judge_assignments := [],
    judges := [],
    evaluations := [⟨0, "s1", "q1", "j2", .pass, Json.null⟩],
    nextEvalId := 1 }

/-- Workspace with one question, one assignment `(j1, q1)` for a judge
owned by `u1`, a stale evaluation for `(q1, j2)` and a current one for
`(q1, j1)`. -/
def dbRecon : DB :=
  { submissions := [⟨"s1", "w1"⟩],
    questions := [⟨"q1", "T", none, "s1"⟩],
    answers := [],
    judge_assignments := [⟨"j1", "q1"⟩],
    judges := [⟨"j1", "N", "rub", "gpt-4", "u1"⟩],
    evaluations := [⟨0, "s1", "q1", "j2", .pass, Json.null⟩,
      ⟨1, "s1", "q1", "j1", .pass, Json.null⟩],
    nextEvalId := 2 }

/-- Workspace with one `multiple_choice` question that has no answer row,
one assignment and one owned judge. -/
def dbNoAnswer : DB :=
  { submissions := [⟨"s1", "w1"⟩],
    questions := [⟨"q1", "What?", some "multiple_choice", "s1"⟩],
    answers := [],
    judge_assignments := [⟨"j1", "q1"⟩],
    judges := [⟨"j1", "N", "rub", "gpt-4", "u1"⟩],
    evaluations := [],
    nextEvalId := 0 }

/-- Two evaluation rows for question `q1`, one of which — the pair
`(q1, j2)` — is no longer assigned. -/
def dbFrame : DB :=
  { submissions := [], questions := [], answers := [], judge_assignments := [],
    judges := [],
    evaluations := [⟨0, "s1", "q1", "j1", .pass, Json.null⟩,
      ⟨1, "s1", "q1", "j2", .fail, Json.null⟩],
    nextEvalId := 2 }


/-! String-containment infrastructure and helper lemmas. -/

lemma startsWithChars_iff (p s : List Char) :
    startsWithChars p s = true ↔ ∃ t, s = p ++ t := by
  induction p generalizing s with
  | nil => simp [startsWithChars]
  | cons x xs ih =>
    cases s with
    | nil => simp [startsWithChars]
    | cons c cs =>
      simp only [startsWithChars, Bool.and_eq_true, beq_iff_eq, ih, List.cons_append,
        List.cons.injEq]
      constructor
      · rintro ⟨rfl, t, rfl⟩
        exact ⟨t, rfl, rfl⟩
      · rintro ⟨t, rfl, rfl⟩
        exact ⟨rfl, t, rfl⟩

lemma containsSub_iff (s pat : List Char) :
    containsSub s pat = true ↔ ∃ a b, s = a ++ (pat ++ b) := by
  induction s with
  | nil =>
    constructor
    · intro h
      rw [containsSub] at h
      split at h
      · next hs =>
        obtain ⟨t, ht⟩ := (startsWithChars_iff pat []).mp hs
        exact ⟨[], t, ht⟩
      · exact absurd h (by simp)
    · rintro ⟨a, b, hab⟩
      have h0 : pat = [] := by
        cases a with
        | nil => cases pat with
          | nil => rfl
          | cons y p' => simp at hab
        | cons x a' => simp at hab
      subst h0
      rw [containsSub]
      simp [startsWithChars]
  | cons c cs ih =>
    constructor
    · intro h
      rw [containsSub] at h
      split at h
      · next hs =>
        obtain ⟨t, ht⟩ := (startsWithChars_iff pat (c :: cs)).mp hs
        exact ⟨[], t, ht⟩
      · obtain ⟨a, b, hab⟩ := ih.mp h
        exact ⟨c :: a, b, by rw [hab]; rfl⟩
    · rintro ⟨a, b, hab⟩
      cases a with
      | nil =>
        have hs : startsWithChars pat (c :: cs) = true :=
          (startsWithChars_iff pat (c :: cs)).mpr ⟨b, by simpa using hab⟩
        rw [containsSub, if_pos hs]
      | cons x a' =>
        simp only [List.cons_append, List.cons.injEq] at hab
        have h2 : containsSub cs pat = true := ih.mpr ⟨a', b, hab.2⟩
        rw [containsSub]
        split
        · rfl
        · exact h2

lemma jsIncludes_iff (s t : String) :
    jsIncludes s t = true ↔ ∃ a b, s.data = a ++ (t.data ++ b) := by
  unfold jsIncludes
  exact containsSub_iff s.data t.data

lemma jsIncludes_middle (pre t post : String) :
    jsIncludes (pre ++ t ++ post) t = true := by
  rw [jsIncludes_iff]
  exact ⟨pre.data, post.data, by simp [List.append_assoc]⟩

lemma jsIncludes_trans {s t u : String} (h1 : jsIncludes s t = true)
    (h2 : jsIncludes t u = true) : jsIncludes s u = true := by
  rw [jsIncludes_iff] at h1 h2 ⊢
  obtain ⟨a, b, hab⟩ := h1
  obtain ⟨c, d, hcd⟩ := h2
  exact ⟨a ++ c, d ++ b, by simp [hab, hcd, List.append_assoc]⟩


lemma promptContains (A q B ans C D : String) :
    jsIncludes (A ++ q ++ B ++ ans ++ C ++ respondJsonFragment ++ D) q = true ∧
    jsIncludes (A ++ q ++ B ++ ans ++ C ++ respondJsonFragment ++ D) ans = true ∧
    jsIncludes (A ++ q ++ B ++ ans ++ C ++ respondJsonFragment ++ D) verdictFieldFragment = true ∧
    jsIncludes (A ++ q ++ B ++ ans ++ C ++ respondJsonFragment ++ D) "\"reasoning\"" = true := by
  have hq : jsIncludes (A ++ q ++ B ++ ans ++ C ++ respondJsonFragment ++ D) q = true := by
    have := jsIncludes_middle A q (B ++ ans ++ C ++ respondJsonFragment ++ D)
    rw [jsIncludes_iff] at this ⊢
    obtain ⟨a, b, hab⟩ := this
    exact ⟨a, b, by simpa [List.append_assoc] using hab⟩
  have hans : jsIncludes (A ++ q ++ B ++ ans ++ C ++ respondJsonFragment ++ D) ans = true := by
    have := jsIncludes_middle (A ++ q ++ B) ans (C ++ respondJsonFragment ++ D)
    rw [jsIncludes_iff] at this ⊢
    obtain ⟨a, b, hab⟩ := this
    exact ⟨a, b, by simpa [List.append_assoc] using hab⟩
  have hfrag : jsIncludes (A ++ q ++ B ++ ans ++ C ++ respondJsonFragment ++ D)
      respondJsonFragment = true := by
    have := jsIncludes_middle (A ++ q ++ B ++ ans ++ C) respondJsonFragment D
    rw [jsIncludes_iff] at this ⊢
    obtain ⟨a, b, hab⟩ := this
    exact ⟨a, b, by simpa [List.append_assoc] using hab⟩
  refine ⟨hq, hans, jsIncludes_trans hfrag ?_, jsIncludes_trans hfrag ?_⟩
  · rfl
  · rfl

/-- Claim C8: for every question type (including the default branch for
null/unrecognised values), question text and answer payload, the prompt
contains the literal question text and the serialised answer payload (as
the template renders it), and contains the instruction fragment naming the
`verdict` field with the three allowed literals and the `reasoning`
field. -/
theorem C8_prompt_builder_contains (questionType : Option String) (questionText : String)
    (answerJson : Json) :
    jsIncludes (buildTypeSpecificPrompt questionType questionText answerJson)
      questionText = true ∧
    jsIncludes (buildTypeSpecificPrompt questionType questionText answerJson)
      (renderedAnswerStr answerJson) = true ∧
    jsIncludes (buildTypeSpecificPrompt questionType questionText answerJson)
      verdictFieldFragment = true ∧
    jsIncludes (buildTypeSpecificPrompt questionType questionText answerJson)
      "\"reasoning\"" = true := by
  unfold buildTypeSpecificPrompt
  split
  · exact promptContains _ _ _ _ _ _
  · exact promptContains _ _ _ _ _ _
  · exact promptContains _ _ _ _ _ _
  · exact promptContains _ _ _ _ _ _

lemma jsEqStr_true_iff (j : Json) (s : String) : jsEqStr j s = true ↔ j = .str s := by
  cases j <;> simp [jsEqStr]

/-- Claim C4: every content string that is not valid JSON makes the
response validator return exactly the parse-failure sentinel, without
throwing (the validator is a total function). -/
theorem C4_validator_invalid_json (content : String) (h : jsonParse content = none) :
    parseEvaluationResult content =
      { verdict := .inconclusive, reasoning := .str "Failed to parse LLM response as JSON" } := by
  unfold parseEvaluationResult
  rw [h]

/-- Witness for C4 at the concrete non-JSON input "not json". -/
theorem C4_validator_invalid_json_witness :
    jsonParse "not json" = none ∧
    parseEvaluationResult "not json" =
      { verdict := .inconclusive, reasoning := .str "Failed to parse LLM response as JSON" } :=
  ⟨rfl, C4_validator_invalid_json "not json" rfl⟩

/-- Claim C5, counterexample to the statement as written: the content
"null" parses as JSON (to the value `null`), yet the validator returns the
parse-failure sentinel instead of a missing-field default, because the
property access on `null` throws inside the `try`; and a present-but-falsy
`reasoning` value (here `false`) is replaced by the empty string rather
than returned. -/
theorem C5_validator_counterexample :
    jsonParse "null" = some Json.null ∧
    (parseEvaluationResult "null").reasoning = .str "Failed to parse LLM response as JSON" ∧
    (parseEvaluationResult "null").reasoning ≠ .str "" ∧
    jsonParse "\x7b\"verdict\": \"pass\", \"reasoning\": false\x7d" =
      some (Json.obj [("verdict", .str "pass"), ("reasoning", .bool false)]) ∧
    (parseEvaluationResult "\x7b\"verdict\": \"pass\", \"reasoning\": false\x7d").reasoning =
      .str "" := by
  refine ⟨rfl, rfl, ?_, rfl, rfl⟩
  have hne : ("Failed to parse LLM response as JSON" : String) ≠ "" := by decide
  exact fun h => hne (Json.str.inj h)

/-- Claim C5 as amended: for content parsing to a non-null JSON value the
validator returns the parsed verdict when it is exactly one of the three
literals and substitutes `inconclusive` for any other or missing verdict
value, and returns the parsed reasoning when it is present and truthy,
else the empty string; for content parsing to `null` the validator returns
the parse-failure sentinel. -/
theorem C5_validator_valid_json (content : String) (j : Json)
    (h : jsonParse content = some j) :
    (j = .null → parseEvaluationResult content =
      { verdict := .inconclusive, reasoning := .str "Failed to parse LLM response as JSON" }) ∧
    (j ≠ .null →
      (jsPropTotal j "verdict" = .str "pass" →
        (parseEvaluationResult content).verdict = .pass) ∧
      (jsPropTotal j "verdict" = .str "fail" →
        (parseEvaluationResult content).verdict = .fail) ∧
      (jsPropTotal j "verdict" = .str "inconclusive" →
        (parseEvaluationResult content).verdict = .inconclusive) ∧
      ((∀ v : String, jsPropTotal j "verdict" = .str v →
          v ≠ "pass" ∧ v ≠ "fail" ∧ v ≠ "inconclusive") →
        (parseEvaluationResult content).verdict = .inconclusive) ∧
      (jsTruthy (jsPropTotal j "reasoning") = true →
        (parseEvaluationResult content).reasoning = jsPropTotal j "reasoning") ∧
      (jsTruthy (jsPropTotal j "reasoning") = false →
        (parseEvaluationResult content).reasoning = .str "")) := by
  constructor
  · rintro rfl
    unfold parseEvaluationResult
    rw [h]
  · intro hne
    have hred : parseEvaluationResult content =
        { verdict := validateVerdict (jsPropTotal j "verdict"),
          reasoning :=
            if jsTruthy (jsPropTotal j "reasoning") then jsPropTotal j "reasoning"
            else .str "" } := by
      unfold parseEvaluationResult
      rw [h]
      cases j with
      | null => exact absurd rfl hne
      | undefined => rfl
      | bool b => rfl
      | num m e => rfl
      | str s => rfl
      | arr xs => rfl
      | obj fs => rfl
    rw [hred]
    refine ⟨?_, ?_, ?_, ?_, ?_, ?_⟩
    · intro hv
      show validateVerdict (jsPropTotal j "verdict") = .pass
      rw [hv]
      rfl
    · intro hv
      show validateVerdict (jsPropTotal j "verdict") = .fail
      rw [hv]
      rfl
    · intro hv
      show validateVerdict (jsPropTotal j "verdict") = .inconclusive
      rw [hv]
      rfl
    · intro hv
      show validateVerdict (jsPropTotal j "verdict") = .inconclusive
      unfold validateVerdict
      rw [if_neg, if_neg]
      · intro hf
        exact ((hv _ ((jsEqStr_true_iff _ _).mp hf)).2.1) rfl
      · intro hp
        exact ((hv _ ((jsEqStr_true_iff _ _).mp hp)).1) rfl
    · intro hr
      show (if jsTruthy (jsPropTotal j "reasoning") then jsPropTotal j "reasoning"
        else Json.str "") = jsPropTotal j "reasoning"
      rw [if_pos hr]
    · intro hr
      show (if jsTruthy (jsPropTotal j "reasoning") then jsPropTotal j "reasoning"
        else Json.str "") = Json.str ""
      rw [if_neg]
      simp [hr]

/-- Witness for C5 at the concrete inputs "null" (sentinel branch) and a
well-formed verdict object (fail branch). -/
theorem C5_validator_valid_json_witness :
    parseEvaluationResult "null" =
      { verdict := .inconclusive, reasoning := .str "Failed to parse LLM response as JSON" } ∧
    (parseEvaluationResult "\x7b\"verdict\": \"fail\", \"reasoning\": \"why\"\x7d").verdict =
      .fail := by
  constructor
  · exact (C5_validator_valid_json "null" Json.null rfl).1 rfl
  · exact ((C5_validator_valid_json "\x7b\"verdict\": \"fail\", \"reasoning\": \"why\"\x7d"
      (Json.obj [("verdict", .str "fail"), ("reasoning", .str "why")]) rfl).2
      (fun hx => Json.noConfusion hx)).2.1 rfl

/-- Claim C3: in the model caller, (a) no invocation ever issues more than
two provider requests; (b) if the first response is non-success and its
error matches the temperature-unsupported pattern (structured
`code`/`param` match or message substring match, as computed by
`tempRetryCheck` from the body), exactly one retry is issued with the
temperature field omitted, and a successful retry's processed result is
returned; (c) a non-success first response not matching the pattern is a
terminal failure with no retry. -/
theorem C3_model_caller_retry (provider : Nat → ProviderResult)
    (apiKey systemPrompt questionText : String) (questionType : Option String)
    (answerJson : Json) (model : String) :
    (callOpenAI provider apiKey systemPrompt questionText questionType answerJson
      model).2.length ≤ 2 ∧
    (∀ status body, provider 0 = .response false status body → tempRetryCheck body = true →
      (callOpenAI provider apiKey systemPrompt questionText questionType answerJson
          model).2.map (fun r => r.includeTemperature) = [supportsTemperature model, false] ∧
      (∀ status2 body2, provider 1 = .response true status2 body2 →
        (callOpenAI provider apiKey systemPrompt questionText questionType answerJson
          model).1 = processOkBody body2)) ∧
    (∀ status body, provider 0 = .response false status body → tempRetryCheck body = false →
      (callOpenAI provider apiKey systemPrompt questionText questionType answerJson
          model).2.map (fun r => r.includeTemperature) = [supportsTemperature model] ∧
      (callOpenAI provider apiKey systemPrompt questionText questionType answerJson
          model).1 = .error (firstErrorThrow status body)) := by
  refine ⟨?_, ?_, ?_⟩
  · cases h0 : provider 0 with
    | response ok status body =>
      by_cases hok : ok = true
      · simp [callOpenAI, h0, hok]
      · by_cases hr : tempRetryCheck body = true
        · cases h1 : provider 1 with
          | response ok2 s2 b2 =>
            by_cases hok2 : ok2 = true <;> simp [callOpenAI, h0, hok, hr, h1, hok2]
          | timeout => simp [callOpenAI, h0, hok, hr, h1]
          | networkError m => simp [callOpenAI, h0, hok, hr, h1]
        · simp [callOpenAI, h0, hok, hr]
    | timeout => simp [callOpenAI, h0]
    | networkError m => simp [callOpenAI, h0]
  · intro status body h0 hr
    constructor
    · cases h1 : provider 1 with
      | response ok2 s2 b2 =>
        by_cases hok2 : ok2 = true <;> simp [callOpenAI, h0, hr, h1, hok2]
      | timeout => simp [callOpenAI, h0, hr, h1]
      | networkError m => simp [callOpenAI, h0, hr, h1]
    · intro s2 b2 h1
      simp [callOpenAI, h0, hr, h1]
  · intro status body h0 hr
    constructor
    · simp [callOpenAI, h0, hr]
    · simp [callOpenAI, h0, hr]

lemma jsToString_str (s : String) : jsToString (Json.str s) = s := by
  simp [jsToString]

/-- Witness for C3 at a concrete provider whose first response carries the
structured temperature-unsupported error and whose retry succeeds. -/
theorem C3_model_caller_retry_witness :
    (callOpenAI
      (fun n => if n == 0 then
        .response false 400
          "\x7b\"error\":\x7b\"code\":\"unsupported_value\",\"param\":\"temperature\"\x7d\x7d"
      else
        .response true 200
          "\x7b\"choices\":[\x7b\"message\":\x7b\"content\":\"\x7b\\\"verdict\\\": \\\"pass\\\", \\\"reasoning\\\": \\\"ok\\\"\x7d\"\x7d\x7d]\x7d")
      "k" "sp" "Q" none Json.null "gpt-4").2.map (fun r => r.includeTemperature) =
      [true, false] ∧
    (callOpenAI
      (fun n => if n == 0 then
        .response false 400
          "\x7b\"error\":\x7b\"code\":\"unsupported_value\",\"param\":\"temperature\"\x7d\x7d"
      else
        .response true 200
          "\x7b\"choices\":[\x7b\"message\":\x7b\"content\":\"\x7b\\\"verdict\\\": \\\"pass\\\", \\\"reasoning\\\": \\\"ok\\\"\x7d\"\x7d\x7d]\x7d")
      "k" "sp" "Q" none Json.null "gpt-4").1 =
      .ok { verdict := .pass, reasoning := .str "ok" } := by
  have hmain := C3_model_caller_retry
    (fun n => if n == 0 then
      ProviderResult.response false 400
        "\x7b\"error\":\x7b\"code\":\"unsupported_value\",\"param\":\"temperature\"\x7d\x7d"
    else
      ProviderResult.response true 200
        "\x7b\"choices\":[\x7b\"message\":\x7b\"content\":\"\x7b\\\"verdict\\\": \\\"pass\\\", \\\"reasoning\\\": \\\"ok\\\"\x7d\"\x7d\x7d]\x7d")
    "k" "sp" "Q" none Json.null "gpt-4"
  have hretry := hmain.2.1 400
    "\x7b\"error\":\x7b\"code\":\"unsupported_value\",\"param\":\"temperature\"\x7d\x7d"
    rfl rfl
  have hbody : processOkBody
      "\x7b\"choices\":[\x7b\"message\":\x7b\"content\":\"\x7b\\\"verdict\\\": \\\"pass\\\", \\\"reasoning\\\": \\\"ok\\\"\x7d\"\x7d\x7d]\x7d" =
      .ok { verdict := .pass, reasoning := .str "ok" } := by
    show Except.ok (parseEvaluationResult
      (jsToString (Json.str "\x7b\"verdict\": \"pass\", \"reasoning\": \"ok\"\x7d"))) =
      Except.ok { verdict := .pass, reasoning := .str "ok" }
    rw [jsToString_str]
    rfl
  constructor
  · exact hretry.1.trans (by decide)
  · exact (hretry.2 200
      "\x7b\"choices\":[\x7b\"message\":\x7b\"content\":\"\x7b\\\"verdict\\\": \\\"pass\\\", \\\"reasoning\\\": \\\"ok\\\"\x7d\"\x7d\x7d]\x7d"
      rfl).trans hbody

/-- Claim C2: the orchestrator never propagates an exception — every
invocation resolves to a result object.  On success it returns
`(questionId, judgeId, verdict, success: true)` and persists the validated
verdict; when any step throws (model call failure, or failure of the main
persistence), it attempts to persist an `inconclusive` row with reasoning
`Error: <message>`, swallows a failure of that fallback persistence, and
returns `(questionId, judgeId, inconclusive, success: false, error:
<message>)`. -/
theorem C2_orchestrator_result (env : OrchEnv) (db : DB) (assignment : Assignment)
    (judge : JudgeData) (question : QuestionData) (openaiApiKey : String) :
    (∃ result,
      (callOpenAI env.provider openaiApiKey judge.system_prompt question.question_text
        question.question_type question.answer_json judge.model).1 = .ok result ∧
      env.saveOutcome 0 = none ∧
      evaluateAssignment env db assignment judge question openaiApiKey =
        ({ questionId := assignment.question_id, judgeId := assignment.judge_id,
           verdict := result.verdict, success := true, error := none },
         saveEvaluationDb db question.submission_id assignment.question_id
           assignment.judge_id result.verdict
           (if jsTruthy result.reasoning then result.reasoning else .null))) ∨
    (∃ (e : JsError) (slot : Nat),
      ((callOpenAI env.provider openaiApiKey judge.system_prompt question.question_text
          question.question_type question.answer_json judge.model).1 = .error e ∧ slot = 0 ∨
       (∃ result m,
        (callOpenAI env.provider openaiApiKey judge.system_prompt question.question_text
          question.question_type question.answer_json judge.model).1 = .ok result ∧
        env.saveOutcome 0 = some m ∧ e = .error m ∧ slot = 1)) ∧
      ((env.saveOutcome slot = none ∧
        evaluateAssignment env db assignment judge question openaiApiKey =
          ({ questionId := assignment.question_id, judgeId := assignment.judge_id,
             verdict := .inconclusive, success := false, error := some e.message },
           saveEvaluationDb db question.submission_id assignment.question_id
             assignment.judge_id .inconclusive (.str ("Error: " ++ e.message)))) ∨
       (∃ m2, env.saveOutcome slot = some m2 ∧
        evaluateAssignment env db assignment judge question openaiApiKey =
          ({ questionId := assignment.question_id, judgeId := assignment.judge_id,
             verdict := .inconclusive, success := false, error := some e.message },
           db)))) := by
  cases hc : (callOpenAI env.provider openaiApiKey judge.system_prompt question.question_text
      question.question_type question.answer_json judge.model).1 with
  | ok result =>
    cases hs0 : env.saveOutcome 0 with
    | none =>
      left
      refine ⟨result, rfl, rfl, ?_⟩
      unfold evaluateAssignment
      rw [hc]
      simp [saveEvaluation, hs0]
    | some m =>
      right
      refine ⟨.error m, 1, Or.inr ⟨result, m, rfl, rfl, rfl, rfl⟩, ?_⟩
      cases hs1 : env.saveOutcome 1 with
      | none =>
        left
        refine ⟨rfl, ?_⟩
        unfold evaluateAssignment
        rw [hc]
        simp [saveEvaluation, hs0, hs1, evalFallback, JsError.message]
      | some m2 =>
        right
        refine ⟨m2, rfl, ?_⟩
        unfold evaluateAssignment
        rw [hc]
        simp [saveEvaluation, hs0, hs1, evalFallback, JsError.message]
  | error e =>
    right
    refine ⟨e, 0, Or.inl ⟨rfl, rfl⟩, ?_⟩
    cases hs0 : env.saveOutcome 0 with
    | none =>
      left
      refine ⟨rfl, ?_⟩
      unfold evaluateAssignment
      rw [hc]
      simp [saveEvaluation, hs0, evalFallback]
    | some m2 =>
      right
      refine ⟨m2, rfl, ?_⟩
      unfold evaluateAssignment
      rw [hc]
      simp [saveEvaluation, hs0, evalFallback]


lemma strData_append (a b : String) : (a ++ b).data = a.data ++ b.data := rfl

lemma append_cons_colon_inj (b d : List Char) :
    ∀ (a c : List Char), ':' ∉ a → ':' ∉ c →
      a ++ ':' :: b = c ++ ':' :: d → a = c ∧ b = d := by
  intro a
  induction a with
  | nil =>
    intro c ha hc h
    cases c with
    | nil => exact ⟨rfl, by simpa using h⟩
    | cons y c' =>
      simp only [List.nil_append, List.cons_append, List.cons.injEq] at h
      have hcm : (':' : Char) ∈ y :: c' := by
        rw [h.1]
        exact List.mem_cons_self y c'
      exact absurd hcm hc
  | cons x a' ih =>
    intro c ha hc h
    cases c with
    | nil =>
      simp only [List.cons_append, List.nil_append, List.cons.injEq] at h
      have ham : (':' : Char) ∈ x :: a' := by
        rw [← h.1]
        exact List.mem_cons_self x a'
      exact absurd ham ha
    | cons y c' =>
      simp only [List.cons_append, List.cons.injEq] at h
      obtain ⟨hxy, h2⟩ := h
      have ha' : ':' ∉ a' := fun hm => ha (List.mem_cons_of_mem _ hm)
      have hc' : ':' ∉ c' := fun hm => hc (List.mem_cons_of_mem _ hm)
      obtain ⟨h3, h4⟩ := ih c' ha' hc' h2
      exact ⟨by rw [hxy, h3], h4⟩

lemma pairKey_eq_iff (a b c d : String) (ha : colonFree a) (hc : colonFree c) :
    pairKey a b = pairKey c d ↔ a = c ∧ b = d := by
  constructor
  · intro h
    have hdata : a.data ++ ':' :: b.data = c.data ++ ':' :: d.data := by
      have h2 := congrArg String.data h
      simp only [pairKey, strData_append] at h2
      simpa [List.append_assoc] using h2
    obtain ⟨h1, h2⟩ := append_cons_colon_inj b.data d.data a.data c.data ha hc hdata
    exact ⟨String.ext h1, String.ext h2⟩
  · rintro ⟨rfl, rfl⟩
    rfl

lemma validPairs_contains_eq (as : List Assignment) (qid jid : String)
    (hq : colonFree qid) (ha : ∀ a ∈ as, colonFree a.question_id) :
    (as.map (fun a => pairKey a.question_id a.judge_id)).contains (pairKey qid jid) =
      as.any (fun a => a.question_id == qid && a.judge_id == jid) := by
  rw [Bool.eq_iff_iff]
  constructor
  · intro hm
    have hmem : pairKey qid jid ∈ as.map (fun a => pairKey a.question_id a.judge_id) :=
      List.elem_iff.mp hm
    obtain ⟨a, haz, heq⟩ := List.mem_map.mp hmem
    obtain ⟨h1, h2⟩ := (pairKey_eq_iff a.question_id a.judge_id qid jid (ha a haz) hq).mp heq
    exact List.any_eq_true.mpr ⟨a, haz, by simp [h1, h2]⟩
  · intro hm
    obtain ⟨a, haz, hpq⟩ := List.any_eq_true.mp hm
    simp only [Bool.and_eq_true, beq_iff_eq] at hpq
    exact List.elem_iff.mpr
      (List.mem_map.mpr ⟨a, haz, by rw [hpq.1, hpq.2]⟩)

/-- Claim C10: the reconciliation step deletes exactly the evaluation rows
whose `question_id` is in the given list and whose `(question_id,
judge_id)` pair is absent from the current assignment list; every other
evaluation row, and every other table, is left unchanged.  The hypotheses
reflect the schema: row ids are unique (primary keys) and ids are UUIDs,
hence free of the `:` separator used by the pair-key encoding. -/
theorem C10_delete_old_evaluations_frame (db : DB) (questionIds : List String)
    (as : List Assignment)
    (hNodup : (db.evaluations.map (fun e => e.id)).Nodup)
    (hq : ∀ e ∈ db.evaluations, colonFree e.question_id)
    (ha : ∀ a ∈ as, colonFree a.question_id) :
    (deleteOldEvaluations db questionIds as).evaluations =
      db.evaluations.filter (fun e =>
        !(questionIds.contains e.question_id &&
          !(as.any (fun a => a.question_id == e.question_id && a.judge_id == e.judge_id)))) ∧
    (deleteOldEvaluations db questionIds as).submissions = db.submissions ∧
    (deleteOldEvaluations db questionIds as).questions = db.questions ∧
    (deleteOldEvaluations db questionIds as).answers = db.answers ∧
    (deleteOldEvaluations db questionIds as).judge_assignments = db.judge_assignments ∧
    (deleteOldEvaluations db questionIds as).judges = db.judges ∧
    (deleteOldEvaluations db questionIds as).nextEvalId = db.nextEvalId := by
  refine ⟨?_, ?_, ?_, ?_, ?_, ?_, ?_⟩
  case refine_1 =>
    simp only [deleteOldEvaluations]
    split_ifs with h1 h2 h3
    · symm
      apply List.filter_eq_self.mpr
      intro e _
      have hcf : questionIds.contains e.question_id = false := by
        cases questionIds with
        | nil => rfl
        | cons x xs => simp at h1
      rw [hcf]
      rfl
    · symm
      apply List.filter_eq_self.mpr
      intro e he
      have hnc : questionIds.contains e.question_id = false := by
        by_contra hc
        have hc' : questionIds.contains e.question_id = true := by
          revert hc
          cases questionIds.contains e.question_id <;> simp
        have hmem : e ∈ db.evaluations.filter (fun e => questionIds.contains e.question_id) :=
          List.mem_filter.mpr ⟨he, hc'⟩
        rw [List.isEmpty_iff.mp h2] at hmem
        simp at hmem
      rw [hnc]
      rfl
    · symm
      apply List.filter_eq_self.mpr
      intro e he
      by_cases hcq : questionIds.contains e.question_id = true
      · have hmem : e ∈ db.evaluations.filter (fun e => questionIds.contains e.question_id) :=
          List.mem_filter.mpr ⟨he, hcq⟩
        have hnotbad : ¬ ((!((as.map (fun a => pairKey a.question_id a.judge_id)).contains
            (pairKey e.question_id e.judge_id))) = true) := by
          intro hbad
          have hm2 : e ∈ (db.evaluations.filter
              (fun e => questionIds.contains e.question_id)).filter
              (fun e => !((as.map (fun a => pairKey a.question_id a.judge_id)).contains
                (pairKey e.question_id e.judge_id))) :=
            List.mem_filter.mpr ⟨hmem, hbad⟩
          rw [List.isEmpty_iff.mp h3] at hm2
          simp at hm2
        have hcontains : (as.map (fun a => pairKey a.question_id a.judge_id)).contains
            (pairKey e.question_id e.judge_id) = true := by
          revert hnotbad
          cases (as.map (fun a => pairKey a.question_id a.judge_id)).contains
            (pairKey e.question_id e.judge_id) <;> simp
        rw [validPairs_contains_eq as _ _ (hq e he) ha] at hcontains
        rw [hcq, hcontains]
        rfl
      · have hcf : questionIds.contains e.question_id = false := by
          revert hcq
          cases questionIds.contains e.question_id <;> simp
        rw [hcf]
        rfl
    · apply List.filter_congr
      intro e he
      have key : (((db.evaluations.filter
            (fun e => questionIds.contains e.question_id)).filter
            (fun e => !((as.map (fun a => pairKey a.question_id a.judge_id)).contains
              (pairKey e.question_id e.judge_id)))).map (fun e => e.id)).contains e.id =
          (questionIds.contains e.question_id &&
            !(as.any (fun a => a.question_id == e.question_id &&
              a.judge_id == e.judge_id))) := by
        rw [Bool.eq_iff_iff]
        constructor
        · intro hm
          obtain ⟨f, hf, hfe⟩ := List.mem_map.mp (List.elem_iff.mp hm)
          obtain ⟨hf1, hf2⟩ := List.mem_filter.mp hf
          obtain ⟨hf0, hf3⟩ := List.mem_filter.mp hf1
          have hef : e = f := List.inj_on_of_nodup_map hNodup he hf0 hfe.symm
          subst hef
          rw [validPairs_contains_eq as _ _ (hq e he) ha] at hf2
          rw [hf3]
          simp only [Bool.true_and]
          exact hf2
        · intro hcond
          simp only [Bool.and_eq_true] at hcond
          have hmem : e ∈ (db.evaluations.filter
              (fun e => questionIds.contains e.question_id)).filter
              (fun e => !((as.map (fun a => pairKey a.question_id a.judge_id)).contains
                (pairKey e.question_id e.judge_id))) := by
            refine List.mem_filter.mpr ⟨List.mem_filter.mpr ⟨he, hcond.1⟩, ?_⟩
            rw [validPairs_contains_eq as _ _ (hq e he) ha]
            exact hcond.2
          exact List.elem_iff.mpr (List.mem_map.mpr ⟨e, hmem, rfl⟩)
      exact congrArg (fun b => !b) key
  all_goals
    simp only [deleteOldEvaluations]
    split_ifs <;> rfl

lemma beq_empty_false_of_ne {s : String} (h : s ≠ "") : (s == "") = false := by
  simpa using h

/-- Claim C7: with a configured credential and non-empty request fields,
the batch runner answers with a 500 error response when the workspace has
no submissions or the submissions have no questions, but answers with a
success response carrying zero processed results when the questions have
no assignments or when none of the assigned judges is owned by the
requesting user. -/
theorem C7_batch_runner_resolution (env : Nat → OrchEnv) (key : Option String)
    (workspaceId userId : String) (db : DB)
    (hkey : strOptTruthy key = true) (hw : workspaceId ≠ "") (hu : userId ≠ "") :
    (getSubmissionsForWorkspace db workspaceId = .error "No submissions found in workspace" →
      (serveRun env key workspaceId userId db).1 =
        .failure "No submissions found in workspace" 500) ∧
    (∀ sids, getSubmissionsForWorkspace db workspaceId = .ok sids →
      getQuestionsForSubmissions db sids = .error "No questions found" →
      (serveRun env key workspaceId userId db).1 = .failure "No questions found" 500) ∧
    (∀ sids qs, getSubmissionsForWorkspace db workspaceId = .ok sids →
      getQuestionsForSubmissions db sids = .ok qs →
      getJudgeAssignments db (qs.map (fun q => q.id)) = .error "No judge assignments found" →
      (serveRun env key workspaceId userId db).1 = .success (successResponse []) ∧
      (successResponse []).processed = 0 ∧ (successResponse []).results = []) ∧
    (∀ sids qs as, getSubmissionsForWorkspace db workspaceId = .ok sids →
      getQuestionsForSubmissions db sids = .ok qs →
      getJudgeAssignments db (qs.map (fun q => q.id)) = .ok as →
      getJudgesForUser db (jsSetDedup (as.map (fun a => a.judge_id))) userId =
        .error "No judges found" →
      (serveRun env key workspaceId userId db).1 = .success (successResponse []) ∧
      (successResponse []).processed = 0 ∧ (successResponse []).results = []) := by
  have hw' := beq_empty_false_of_ne hw
  have hu' := beq_empty_false_of_ne hu
  refine ⟨?_, ?_, ?_, ?_⟩
  · intro hsub
    simp [serveRun, hkey, hw', hu', hsub]
  · intro sids hsub hq
    simp [serveRun, hkey, hw', hu', hsub, hq]
  · intro sids qs hsub hq hA
    refine ⟨?_, rfl, rfl⟩
    simp [serveRun, hkey, hw', hu', hsub, hq, hA]
    rfl
  · intro sids qs as hsub hq hA hJ
    refine ⟨?_, rfl, rfl⟩
    simp [serveRun, hkey, hw', hu', hsub, hq, hA, hJ]
    rfl

/-- Witness for C7 at two concrete databases: one with no submissions
(hard failure) and one whose questions have no assignments (benign empty
success). -/
theorem C7_batch_runner_resolution_witness :
    (serveRun (fun _ => ⟨fun _ => .timeout, fun _ => none⟩) (some "k") "w1" "u1"
      { submissions := [], questions := [], answers := [], judge_assignments := [],
        judges := [], evaluations := [], nextEvalId := 0 }).1 =
      .failure "No submissions found in workspace" 500 ∧
    (serveRun (fun _ => ⟨fun _ => .timeout, fun _ => none⟩) (some "k") "w1" "u1"
      { submissions := [⟨"s1", "w1"⟩],
        questions := [⟨"q1", "T", none, "s1"⟩], answers := [],
        judge_assignments := [], judges := [], evaluations := [], nextEvalId := 0 }).1 =
      .success (successResponse []) := by
  constructor
  · exact (C7_batch_runner_resolution (fun _ => ⟨fun _ => .timeout, fun _ => none⟩)
      (some "k") "w1" "u1"
      { submissions := [], questions := [], answers := [], judge_assignments := [],
        judges := [], evaluations := [], nextEvalId := 0 }
      rfl (by decide) (by decide)).1 rfl
  · exact ((C7_batch_runner_resolution (fun _ => ⟨fun _ => .timeout, fun _ => none⟩)
      (some "k") "w1" "u1"
      { submissions := [⟨"s1", "w1"⟩],
        questions := [⟨"q1", "T", none, "s1"⟩], answers := [],
        judge_assignments := [], judges := [], evaluations := [], nextEvalId := 0 }
      rfl (by decide) (by decide)).2.2.1 ["s1"]
      [{ id := "q1", question_text := "T", question_type := none,
         answer_json := Json.null, submission_id := "s1" }] rfl rfl rfl).1

lemma serveRun_success_form (env : Nat → OrchEnv) (key : Option String)
    (workspaceId userId : String) (db : DB) (resp : SummaryResponse)
    (h : (serveRun env key workspaceId userId db).1 = .success resp) :
    ∃ l, resp = successResponse l := by
  simp only [serveRun] at h
  repeat' split at h
  all_goals
    first
      | exact RunOutcome.noConfusion h
      | exact ⟨_, (RunOutcome.success.inj h).symm⟩

lemma successResponse_counts (l : List EvaluationResult) :
    (successResponse l).processed = (successResponse l).results.length ∧
    (successResponse l).processed =
      (successResponse l).passed + (successResponse l).failed +
        (successResponse l).inconclusive := by
  refine ⟨rfl, ?_⟩
  simp only [successResponse]
  induction l with
  | nil => rfl
  | cons r rs ih =>
    simp only [List.length_cons, List.filter_cons]
    cases hv : r.verdict <;> simp [hv, beq_iff_eq] <;> omega

/-- Claim C9: every success response of the trigger endpoint satisfies
`processed = results.length = passed + failed + inconclusive`, because
every individual result's verdict is one of the three literals. -/
theorem C9_summary_statistics (env : Nat → OrchEnv) (key : Option String)
    (workspaceId userId : String) (db : DB) (resp : SummaryResponse)
    (h : (serveRun env key workspaceId userId db).1 = .success resp) :
    resp.processed = resp.results.length ∧
    resp.processed = resp.passed + resp.failed + resp.inconclusive := by
  obtain ⟨l, rfl⟩ := serveRun_success_form env key workspaceId userId db resp h
  exact successResponse_counts l

/-- Witness for C9 at a concrete run that succeeds with an empty result
set. -/
theorem C9_summary_statistics_witness :
    (successResponse []).processed = (successResponse []).results.length ∧
    (successResponse []).processed =
      (successResponse []).passed + (successResponse []).failed +
        (successResponse []).inconclusive :=
  C9_summary_statistics (fun _ => ⟨fun _ => .timeout, fun _ => none⟩) (some "k") "w1" "u1"
    { submissions := [⟨"s1", "w1"⟩], questions := [⟨"q1", "T", none, "s1"⟩], answers := [],
      judge_assignments := [], judges := [], evaluations := [], nextEvalId := 0 }
    (successResponse []) rfl

lemma deleteOldEvaluations_invariant (db : DB) (questionIds : List String)
    (as : List Assignment) :
    ∀ e ∈ (deleteOldEvaluations db questionIds as).evaluations,
      e ∈ db.evaluations ∧
      (questionIds.contains e.question_id = true →
        (as.map (fun a => pairKey a.question_id a.judge_id)).contains
          (pairKey e.question_id e.judge_id) = true) := by
  intro e he
  simp only [deleteOldEvaluations] at he
  split_ifs at he with h1 h2 h3
  · refine ⟨he, fun hp => ?_⟩
    exfalso
    cases questionIds with
    | nil => cases hp
    | cons x xs => simp at h1
  · refine ⟨he, fun hp => ?_⟩
    exfalso
    have hmem : e ∈ db.evaluations.filter (fun e => questionIds.contains e.question_id) :=
      List.mem_filter.mpr ⟨he, hp⟩
    rw [List.isEmpty_iff.mp h2] at hmem
    simp at hmem
  · refine ⟨he, fun hp => ?_⟩
    have hmem : e ∈ db.evaluations.filter (fun e => questionIds.contains e.question_id) :=
      List.mem_filter.mpr ⟨he, hp⟩
    by_contra hnc
    have hbad : (!((as.map (fun a => pairKey a.question_id a.judge_id)).contains
        (pairKey e.question_id e.judge_id))) = true := by
      revert hnc
      cases ((as.map (fun a => pairKey a.question_id a.judge_id)).contains
        (pairKey e.question_id e.judge_id)) <;> simp
    have hm2 : e ∈ (db.evaluations.filter
        (fun e => questionIds.contains e.question_id)).filter
        (fun e => !((as.map (fun a => pairKey a.question_id a.judge_id)).contains
          (pairKey e.question_id e.judge_id))) := List.mem_filter.mpr ⟨hmem, hbad⟩
    rw [List.isEmpty_iff.mp h3] at hm2
    simp at hm2
  · obtain ⟨hin, hkeep⟩ := List.mem_filter.mp he
    refine ⟨hin, fun hp => ?_⟩
    by_contra hnc
    have hbad : (!((as.map (fun a => pairKey a.question_id a.judge_id)).contains
        (pairKey e.question_id e.judge_id))) = true := by
      revert hnc
      cases ((as.map (fun a => pairKey a.question_id a.judge_id)).contains
        (pairKey e.question_id e.judge_id)) <;> simp
    have hmm : e ∈ (db.evaluations.filter
        (fun e => questionIds.contains e.question_id)).filter
        (fun e => !((as.map (fun a => pairKey a.question_id a.judge_id)).contains
          (pairKey e.question_id e.judge_id))) :=
      List.mem_filter.mpr ⟨List.mem_filter.mpr ⟨hin, hp⟩, hbad⟩
    have hid : ((((db.evaluations.filter
        (fun e => questionIds.contains e.question_id)).filter
        (fun e => !((as.map (fun a => pairKey a.question_id a.judge_id)).contains
          (pairKey e.question_id e.judge_id)))).map (fun e => e.id)).contains e.id) = true :=
      List.elem_iff.mpr (List.mem_map.mpr ⟨e, hmm, rfl⟩)
    rw [hid] at hkeep
    cases hkeep

lemma saveEvaluationDb_pairs (db : DB) (sid qid jid : String) (v : Verdict) (r : Json) :
    ∀ e ∈ (saveEvaluationDb db sid qid jid v r).evaluations,
      (∃ e0 ∈ db.evaluations, e.question_id = e0.question_id ∧ e.judge_id = e0.judge_id) ∨
      (e.question_id = qid ∧ e.judge_id = jid) := by
  intro e he
  simp only [saveEvaluationDb] at he
  split_ifs at he with hex
  · obtain ⟨e0, he0, heq⟩ := List.mem_map.mp he
    by_cases hm : (e0.question_id == qid && e0.judge_id == jid) = true
    · rw [if_pos hm] at heq
      exact Or.inl ⟨e0, he0, by rw [← heq], by rw [← heq]⟩
    · rw [if_neg hm] at heq
      subst heq
      exact Or.inl ⟨e0, he0, rfl, rfl⟩
  · rw [List.mem_append] at he
    cases he with
    | inl h => exact Or.inl ⟨e, h, rfl, rfl⟩
    | inr h =>
      have heq := List.mem_singleton.mp h
      subst heq
      exact Or.inr ⟨rfl, rfl⟩

lemma evaluateAssignment_db_cases (env : OrchEnv) (db : DB) (a : Assignment)
    (judge : JudgeData) (question : QuestionData) (apiKey : String) :
    (evaluateAssignment env db a judge question apiKey).2 = db ∨
    (∃ v r, (evaluateAssignment env db a judge question apiKey).2 =
      saveEvaluationDb db question.submission_id a.question_id a.judge_id v r) := by
  unfold evaluateAssignment evalFallback saveEvaluation
  cases (callOpenAI env.provider apiKey judge.system_prompt question.question_text
      question.question_type question.answer_json judge.model).1 with
  | ok result =>
    cases env.saveOutcome 0 with
    | none => exact Or.inr ⟨_, _, rfl⟩
    | some m =>
      cases env.saveOutcome 1 with
      | none => exact Or.inr ⟨_, _, rfl⟩
      | some m2 => exact Or.inl rfl
  | error e =>
    cases env.saveOutcome 0 with
    | none => exact Or.inr ⟨_, _, rfl⟩
    | some m2 => exact Or.inl rfl

lemma evaluateAssignment_pairs (env : OrchEnv) (db : DB) (a : Assignment)
    (judge : JudgeData) (question : QuestionData) (apiKey : String) :
    ∀ e ∈ (evaluateAssignment env db a judge question apiKey).2.evaluations,
      (∃ e0 ∈ db.evaluations, e.question_id = e0.question_id ∧ e.judge_id = e0.judge_id) ∨
      (e.question_id = a.question_id ∧ e.judge_id = a.judge_id) := by
  intro e he
  rcases evaluateAssignment_db_cases env db a judge question apiKey with h | ⟨v, r, h⟩
  · rw [h] at he
    exact Or.inl ⟨e, he, rfl, rfl⟩
  · rw [h] at he
    exact saveEvaluationDb_pairs db question.submission_id a.question_id a.judge_id v r e he

lemma processAssignments_invariant (env : Nat → OrchEnv) (apiKey : String)
    (judgeMap : List (String × JudgeData)) (questionMap : List (String × QuestionData))
    (questionIds : List String) (as0 : List Assignment) :
    ∀ (l : List Assignment), (∀ a ∈ l, a ∈ as0) → ∀ (i : Nat) (db : DB),
      (∀ e ∈ db.evaluations, questionIds.contains e.question_id = true →
        as0.any (fun a => a.question_id == e.question_id &&
          a.judge_id == e.judge_id) = true) →
      ∀ e ∈ (processAssignments env apiKey judgeMap questionMap l i db).2.evaluations,
        questionIds.contains e.question_id = true →
        as0.any (fun a => a.question_id == e.question_id &&
          a.judge_id == e.judge_id) = true := by
  intro l
  induction l with
  | nil =>
    intro _ i db hInv e he
    exact hInv e he
  | cons a rest ih =>
    intro hsub i db hInv
    simp only [processAssignments]
    cases mapGet judgeMap a.judge_id with
    | none => exact ih (fun x hx => hsub x (List.mem_cons_of_mem _ hx)) (i + 1) db hInv
    | some judge =>
      cases mapGet questionMap a.question_id with
      | none => exact ih (fun x hx => hsub x (List.mem_cons_of_mem _ hx)) (i + 1) db hInv
      | some question =>
        apply ih (fun x hx => hsub x (List.mem_cons_of_mem _ hx)) (i + 1)
        intro e he hp
        rcases evaluateAssignment_pairs (env i) db a judge question apiKey e he with
          ⟨e0, he0, hq, hj⟩ | ⟨hq, hj⟩
        · rw [hq] at hp
          rw [hq, hj]
          exact hInv e0 he0 hp
        · rw [hq, hj]
          exact List.any_eq_true.mpr ⟨a, hsub a (List.mem_cons_self _ _), by simp⟩

/-- Claim C1, counterexample to the statement as written: when the
resolved assignment set is empty the run returns success *before* the
reconciliation step, so an evaluation row whose pair is absent from the
(empty) assignment set survives a completed run.  The conjuncts show: the
run completes with a success response; the stale row is still present
afterwards; and the resolved assignment set for the workspace's questions
is empty. -/
theorem C1_reconciliation_counterexample :
    (serveRun envNetworkError (some "k") "w1" "u1" dbStale).1 =
      .success (successResponse []) ∧
    (serveRun envNetworkError (some "k") "w1" "u1" dbStale).2.evaluations =
      [⟨0, "s1", "q1", "j2", .pass, Json.null⟩] ∧
    dbStale.judge_assignments.filter
      (fun a => ["q1"].contains a.question_id) = [] :=
  ⟨rfl, rfl, rfl⟩

set_option maxHeartbeats 2000000 in
/-- Claim C1 as amended: in a batch run in which the resolution steps all
succeed — which requires the resolved assignment set and the resolved
judge set to be non-empty — the reconciliation delete runs before any
assignment is processed, and afterwards every evaluation row for the
workspace's questions corresponds to a pair present in the resolved
assignment set.  (When either resolution finds none, the run instead
returns success early without reconciliation, as the counterexample
shows.)  The colon-freedom hypotheses reflect the UUID ids of the
schema. -/
theorem C1_reconciliation (env : Nat → OrchEnv) (key : Option String)
    (workspaceId userId : String) (db : DB) (sids : List String)
    (qs : List QuestionData) (as : List Assignment) (js : List JudgeData)
    (hkey : strOptTruthy key = true) (hw : workspaceId ≠ "") (hu : userId ≠ "")
    (hS : getSubmissionsForWorkspace db workspaceId = .ok sids)
    (hQ : getQuestionsForSubmissions db sids = .ok qs)
    (hA : getJudgeAssignments db (qs.map (fun q => q.id)) = .ok as)
    (hJ : getJudgesForUser db (jsSetDedup (as.map (fun a => a.judge_id))) userId = .ok js)
    (hqColon : ∀ e ∈ db.evaluations, colonFree e.question_id)
    (haColon : ∀ a ∈ as, colonFree a.question_id) :
    ∀ e ∈ (serveRun env key workspaceId userId db).2.evaluations,
      (qs.map (fun q => q.id)).contains e.question_id = true →
      as.any (fun a => a.question_id == e.question_id && a.judge_id == e.judge_id) = true := by
  have hw' := beq_empty_false_of_ne hw
  have hu' := beq_empty_false_of_ne hu
  intro e he hp
  have hdbeq : (serveRun env key workspaceId userId db).2 =
      (processAssignments env (key.getD "") (buildJudgeMap js)
        (buildQuestionMap qs (getAnswersForQuestions db (qs.map (fun q => q.id)))) as 0
        (deleteOldEvaluations db (qs.map (fun q => q.id)) as)).2 := by
    unfold serveRun
    simp only [hkey, hw', hu', hS, hQ, hA, hJ, Bool.not_true, Bool.or_self]
    rfl
  rw [hdbeq] at he
  have hInv : ∀ e2 ∈ (deleteOldEvaluations db (qs.map (fun q => q.id)) as).evaluations,
      (qs.map (fun q => q.id)).contains e2.question_id = true →
      as.any (fun a => a.question_id == e2.question_id && a.judge_id == e2.judge_id) = true := by
    intro e2 he2 hp2
    obtain ⟨hin, himp⟩ := deleteOldEvaluations_invariant db (qs.map (fun q => q.id)) as e2 he2
    have hcontains := himp hp2
    rw [validPairs_contains_eq as _ _ (hqColon e2 hin) haColon] at hcontains
    exact hcontains
  exact processAssignments_invariant env (key.getD "") (buildJudgeMap js)
    (buildQuestionMap qs (getAnswersForQuestions db (qs.map (fun q => q.id))))
    (qs.map (fun q => q.id)) as as (fun a ha => ha) 0
    (deleteOldEvaluations db (qs.map (fun q => q.id)) as) hInv e he hp
/-- Witness for C1 at a concrete run in which reconciliation executes:
after the run, the surviving row for the workspace's question has its pair
in the assignment set. -/
theorem C1_reconciliation_witness :
    [({ judge_id := "j1", question_id := "q1" } : Assignment)].any
      (fun a => a.question_id == "q1" && a.judge_id == "j1") = true := by
  have h := C1_reconciliation envNetworkError (some "k") "w1" "u1" dbRecon ["s1"]
    [{ id := "q1", question_text := "T", question_type := none,
       answer_json := Json.null, submission_id := "s1" }]
    [{ judge_id := "j1", question_id := "q1" }]
    [{ id := "j1", name := "N", system_prompt := "rub", model := "gpt-4" }]
    rfl (by decide) (by decide) rfl rfl rfl rfl (by decide) (by decide)
  have hevals : (serveRun envNetworkError (some "k") "w1" "u1" dbRecon).2.evaluations =
      [⟨1, "s1", "q1", "j1", .inconclusive, .str "Error: boom"⟩] := rfl
  have hm : (⟨1, "s1", "q1", "j1", .inconclusive, .str "Error: boom"⟩ : EvaluationRow) ∈
      (serveRun envNetworkError (some "k") "w1" "u1" dbRecon).2.evaluations := by
    rw [hevals]
    exact List.mem_singleton.mpr rfl
  exact h _ hm rfl

lemma renderedAnswerStr_undefined : renderedAnswerStr Json.undefined = "undefined" := by
  simp [renderedAnswerStr, jsonStringify, stringifyAux]

lemma jsIncludes_answer_undefined (A text C D : String) :
    jsIncludes (A ++ text ++ "\n\nAnswer JSON:\n" ++ "undefined" ++ C ++
      respondJsonFragment ++ D) "Answer JSON:\nundefined" = true := by
  have hstr : A ++ text ++ "\n\nAnswer JSON:\n" ++ "undefined" ++ C ++
      respondJsonFragment ++ D =
      (A ++ text ++ "\n\n") ++ "Answer JSON:\nundefined" ++
        (C ++ respondJsonFragment ++ D) := by
    apply String.ext
    have h1 : ("\n\nAnswer JSON:\n" : String) = "\n\n" ++ "Answer JSON:\n" := rfl
    have h2 : ("Answer JSON:\nundefined" : String) = "Answer JSON:\n" ++ "undefined" := rfl
    rw [h1, h2]
    simp only [strData_append, List.append_assoc]
  rw [hstr]
  exact jsIncludes_middle (A ++ text ++ "\n\n") "Answer JSON:\nundefined"
    (C ++ respondJsonFragment ++ D)

lemma prompt_undef_contains (qt : Option String) (text : String) :
    jsIncludes (buildTypeSpecificPrompt qt text Json.undefined)
      "Answer JSON:\nundefined" = true := by
  unfold buildTypeSpecificPrompt
  simp only [renderedAnswerStr_undefined]
  split
  · exact jsIncludes_answer_undefined _ _ _ _
  · exact jsIncludes_answer_undefined _ _ _ _
  · exact jsIncludes_answer_undefined _ _ _ _
  · exact jsIncludes_answer_undefined _ _ _ _


set_option maxRecDepth 40000 in
/-- Claim C6, counterexample to the statement as written: a question with
no answer row is evaluated with the JavaScript `undefined` value, not with
`null` — `Map.get` on a missing key yields `undefined`, and
`JSON.stringify(undefined, null, 2)` is `undefined`, which the template
renders as the text "undefined".  The run does complete successfully, but
the built prompt contains no occurrence of "null" at all, so it does not
serialize the answer as JSON `null`. -/
theorem C6_missing_answer_counterexample :
    (serveRun envNetworkError (some "k") "w1" "u1" dbNoAnswer).1 =
      .success (successResponse [⟨"q1", "j1", .inconclusive, false, some "boom"⟩]) ∧
    mapGet (getAnswersForQuestions dbNoAnswer ["q1"]) "q1" = none ∧
    jsIncludes (buildTypeSpecificPrompt (some "multiple_choice") "What?"
      ((mapGet (getAnswersForQuestions dbNoAnswer ["q1"]) "q1").getD Json.undefined))
      "null" = false := by
  refine ⟨rfl, rfl, ?_⟩
  show jsIncludes (buildTypeSpecificPrompt (some "multiple_choice") "What?" Json.undefined)
    "null" = false
  have hprompt : buildTypeSpecificPrompt (some "multiple_choice") "What?" Json.undefined =
      "Question Type: Multiple Choice\nQuestion: " ++ "What?" ++
      "\n\nAnswer JSON:\n" ++ renderedAnswerStr Json.undefined ++
      "\n\nEvaluation Instructions:\n- This is a standard multiple-choice question with a definitive ground truth.\n- Extract the user\x27s choice from the \x27choice\x27, \x27label\x27, or \x27choices\x27 field in the answer JSON.\n- If \x27choices\x27 is an array, use the array values as the selected options.\n- If \x27choices\x27 is a single value, treat it as the selected choice.\n- Check if the choice(s) match the correct answer (ground truth).\n- If the choice is incorrect, issue an immediate FAIL.\n- If the choice is correct, issue a PASS.\n- Respond with JSON: " ++
      respondJsonFragment ++ "\"\x7d" := rfl
  rw [hprompt, renderedAnswerStr_undefined]
  decide

/-- Claim C6 as amended: for every question that has no Answer row, the
batch run does not fail — when the resolution steps succeed the run
returns a success response — and the question is evaluated with an
`undefined` answer payload, so the prompt built for it renders the answer
as the literal text "undefined" (the template interpolation of
`JSON.stringify(undefined, null, 2)`), not as JSON `null`. -/
theorem C6_missing_answer (env : Nat → OrchEnv) (key : Option String)
    (workspaceId userId : String) (db : DB) (sids : List String)
    (qs : List QuestionData) (as : List Assignment) (js : List JudgeData)
    (hkey : strOptTruthy key = true) (hw : workspaceId ≠ "") (hu : userId ≠ "")
    (hS : getSubmissionsForWorkspace db workspaceId = .ok sids)
    (hQ : getQuestionsForSubmissions db sids = .ok qs)
    (hA : getJudgeAssignments db (qs.map (fun q => q.id)) = .ok as)
    (hJ : getJudgesForUser db (jsSetDedup (as.map (fun a => a.judge_id))) userId = .ok js) :
    (∃ resp, (serveRun env key workspaceId userId db).1 = .success resp) ∧
    (∀ q ∈ qs, mapGet (getAnswersForQuestions db (qs.map (fun q2 => q2.id))) q.id = none →
      jsIncludes (buildTypeSpecificPrompt q.question_type q.question_text
        ((mapGet (getAnswersForQuestions db (qs.map (fun q2 => q2.id))) q.id).getD Json.undefined))
        "Answer JSON:\nundefined" = true) := by
  have hw' := beq_empty_false_of_ne hw
  have hu' := beq_empty_false_of_ne hu
  constructor
  · refine ⟨successResponse (processAssignments env (key.getD "") (buildJudgeMap js)
      (buildQuestionMap qs (getAnswersForQuestions db (qs.map (fun q => q.id)))) as 0
      (deleteOldEvaluations db (qs.map (fun q => q.id)) as)).1, ?_⟩
    unfold serveRun
    simp only [hkey, hw', hu', hS, hQ, hA, hJ, Bool.not_true, Bool.or_self]
    rfl
  · intro q _ hmiss
    rw [hmiss]
    exact prompt_undef_contains q.question_type q.question_text

/-- Witness for C6 at a concrete run over a workspace whose single
question has no answer row. -/
theorem C6_missing_answer_witness :
    (∃ resp, (serveRun envNetworkError (some "k") "w1" "u1" dbRecon).1 =
      .success resp) ∧
    jsIncludes (buildTypeSpecificPrompt none "T" Json.undefined)
      "Answer JSON:\nundefined" = true := by
  have h := C6_missing_answer envNetworkError (some "k") "w1" "u1" dbRecon ["s1"]
    [{ id := "q1", question_text := "T", question_type := none,
       answer_json := Json.null, submission_id := "s1" }]
    [{ judge_id := "j1", question_id := "q1" }]
    [{ id := "j1", name := "N", system_prompt := "rub", model := "gpt-4" }]
    rfl (by decide) (by decide) rfl rfl rfl rfl
  refine ⟨h.1, ?_⟩
  exact h.2 (⟨"q1", "T", none, Json.null, "s1"⟩ : QuestionData)
    (List.mem_singleton.mpr rfl) rfl


/-- Witness for C10 at a concrete database: only the no-longer-assigned
row is removed. -/
theorem C10_delete_old_evaluations_frame_witness :
    (deleteOldEvaluations dbFrame ["q1"] [⟨"j1", "q1"⟩]).evaluations =
      [⟨0, "s1", "q1", "j1", .pass, Json.null⟩] :=
  (C10_delete_old_evaluations_frame dbFrame ["q1"] [⟨"j1", "q1"⟩]
    (by decide) (by decide) (by decide)).1.trans rfl
